import Mathlib

/-!
# InterView signaling server (`serverGO/main.go`)

A shallow embedding of the session rendezvous and relay state machine of the Go
signaling server, followed by theorems about it.

Conventions of the embedding.

* Go pointers to `Connection` objects are connection identifiers (`ConnId`); the
  objects themselves live in `Server.conns`.  A pointer of type `*Connection` that
  may be `nil` is an `Option ConnId`.
* Go maps are total functions into `Option` (or into `Bool` for `map[string]bool`,
  where a missing key reads as `false`).
* Every handler is one atomic step.  It receives the clock reading `now` (the value
  of `time.Now()`, an `Int` count of nanoseconds) and, where it draws random
  numbers, the stream of raw draws.
* A handler returns an `Outcome`: the next server state, the list of calls of
  `Connection.Send` it made (in program order) and the goroutines it spawned.  A
  call of `Send` on a closed connection returns an error and writes no frame
  (`Connection.Send`); the handlers ignore that result, as the source does.
* `NewServer` starts with every connection object as `handleConnection` creates it:
  open, with empty role and session code.
* A goroutine is a value (`Goroutine`) with its sleeps in milliseconds and the code
  it runs at each wake-up (`Goroutine.fire`), which returns an error on a panic.
* The mutexes are not part of the server state; the order in which a handler locks
  them and calls `Send` is recorded by separate trace functions (`Lock`, `LockOp`).
-/

namespace InterView

/-! ## Basic types -/

/-- Identity of a `Connection` object (the target of a `*Connection`). -/
abbrev ConnId := Nat

/-- Decoded JSON values, the dynamic values behind Go's `interface{}`;
`Json.null` is the `nil` interface value. -/
inductive Json where
  | null : Json
  | bool (b : Bool) : Json
  | num (n : Int) : Json
  | str (s : String) : Json
  | arr (xs : List Json) : Json
  | obj (kvs : List (String × Json)) : Json

abbrev MessageType := String

def RequestCode : MessageType := "requestCode"
def CodeAssigned : MessageType := "codeAssigned"
def Register : MessageType := "register"
def SessionEstablished : MessageType := "sessionEstablished"
def ClientConnected : MessageType := "clientConnected"
def ClientDisconnected : MessageType := "clientDisconnected"
def ClientReconnected : MessageType := "clientReconnected"
def ViewerConnected : MessageType := "viewerConnected"
def ViewerDisconnected : MessageType := "viewerDisconnected"
def Connect : MessageType := "connect"
def Signal : MessageType := "signal"
def DisplayConfigChanged : MessageType := "displayConfigChanged"
def MonitorInfo : MessageType := "monitorInfo"
def ProcessInfo : MessageType := "processInfo"
def AdminCommand : MessageType := "adminCommand"
def AdminCommandResponse : MessageType := "adminCommandResponse"
def Error : MessageType := "error"

abbrev Role := String

def ClientRole : Role := "client"
def ViewerRole : Role := "viewer"

/-- The connection wrapper.  `WS` is the transport handle, `none` once closed. -/
structure Connection where
  WS : Option Nat
  Role : Role
  SessionCode : String
  deriving DecidableEq

structure SessionInfo where
  CreatedAt : Int
  MonitorInfo : Json
  ProcessInfo : Json
  ClientInfo : Json

/-- A client-viewer pair.  `Info` is a pointer in the source, hence optional. -/
structure Session where
  Client : Option ConnId
  Viewer : Option ConnId
  Info : Option SessionInfo

/-- Pending code data.  Every `PendingCode` in the source is built with
`ViewerWS: conn`, the (non-nil) connection being served. -/
structure PendingCode where
  CreatedAt : Int
  ViewerWS : ConnId
  deriving DecidableEq

/-- Inbound envelope (`MsgType` is the field `Type` of the source).  `Payload` is
`none` when the raw payload is empty. -/
structure Message where
  MsgType : MessageType
  Code : String
  Payload : Option Json
  Role : Role

/-- Outbound envelope (`MsgType` is the field `Type` of the source). -/
structure ResponseMessage where
  MsgType : MessageType
  Payload : Json
  Timestamp : Option Int

/-- The server tables together with the connection objects they point to.  The
`connections` registry and `nextConnID` of the source are read by no handler and
are left out. -/
structure Server where
  sessions : String → Option Session
  activeCodes : String → Bool
  pendingCodes : String → Option PendingCode
  conns : ConnId → Connection

/-- A connection as `handleConnection` creates it. -/
def freshConnection : Connection :=
  { WS := some 0, Role := "", SessionCode := "" }

def NewServer : Server :=
  { sessions := fun _ => none
    activeCodes := fun _ => false
    pendingCodes := fun _ => none
    conns := fun _ => freshConnection }

/-! ## Configuration constants and small helpers -/

/-- Thirty minutes, in nanoseconds. -/
def PENDING_CODE_TTL : Int := 30 * (60 * 1000000000)

def maxDuration : Int := 2 ^ 63 - 1

def minDuration : Int := -(2 ^ 63)

/-- `Time.Sub`: the difference, saturated to the range of a `time.Duration`. -/
def Time.Sub (t u : Int) : Int :=
  if t - u > maxDuration then maxDuration
  else if t - u < minDuration then minDuration
  else t - u

/-- `time.Now().UnixMilli()` for the clock reading `now`. -/
def getCurrentTimestamp (now : Int) : Int := now / 1000000

def createResponseMessage (now : Int) (msgType : MessageType) (payload : Json) :
    ResponseMessage :=
  { MsgType := msgType, Payload := payload, Timestamp := some (getCurrentTimestamp now) }

def createSimpleResponseMessage (msgType : MessageType) (payload : Json) :
    ResponseMessage :=
  { MsgType := msgType, Payload := payload, Timestamp := none }

/-- Result of `json.Unmarshal(msg.Payload, &v)` guarded by `len(msg.Payload) > 0`,
for `v` of type `interface{}`. -/
def parsePayload (raw : Option Json) : Json :=
  match raw with
  | none => Json.null
  | some j => j

/-- Pointwise update of a map. -/
def setKey {β : Type} (m : String → β) (k : String) (v : β) : String → β :=
  fun x => if x = k then v else m x

/-- Pointwise update of the connection store. -/
def setConn (m : ConnId → Connection) (k : ConnId) (c : Connection) : ConnId → Connection :=
  fun x => if x = k then c else m x

/-! ## Connection -/

def Connection.IsOpen (c : Connection) : Bool := c.WS.isSome

def Connection.Close (c : Connection) : Connection := { c with WS := none }

/-- `Send`: an error when the transport handle is nil, otherwise the frame written. -/
def Connection.Send (c : Connection) (message : ResponseMessage) :
    Except String ResponseMessage :=
  match c.WS with
  | none => Except.error "connection is nil"
  | some _ => Except.ok message

/-- The operations of a `Connection`. -/
inductive ConnOp where
  | send (message : ResponseMessage) : ConnOp
  | isOpen : ConnOp
  | close : ConnOp

/-- The connection object after one of its operations has run: `Close` is the only
one that assigns a field (`c.WS = nil`, line 93); `Send` and `IsOpen` only read
`WS`. -/
def Connection.apply (c : Connection) : ConnOp → Connection
  | ConnOp.send _ => c
  | ConnOp.isOpen => c
  | ConnOp.close => c.Close

/-! ## Code registry -/

def digitChar (d : Nat) : Char := Char.ofNat (48 + d % 10)

/-- `fmt.Sprintf("%06d", n)`. -/
def sprintf06 (n : Nat) : String :=
  if n < 1000000 then
    String.mk [digitChar (n / 100000), digitChar (n / 10000), digitChar (n / 1000),
      digitChar (n / 100), digitChar (n / 10), digitChar n]
  else Nat.repr n

/-- `rand.Intn(n)` on the raw draw `raw`. -/
def Intn (n : Nat) (raw : Nat) : Nat := raw % n

def maxAttempts : Nat := 10

/-- The `for` loop of `generateUniqueCode`.  `attempts` is the loop counter on
entry to an iteration; each call of `rand.Intn` consumes the next raw draw, so the
iteration entered with counter `attempts` reads `rnd attempts`, and the fallback
taken there reads `rnd (attempts + 1)`.  The first argument bounds the number of
iterations; the loop leaves at the latest when the counter reaches `maxAttempts`. -/
def generateLoop (activeCodes : String → Bool) (rnd : Nat → Nat) : Nat → Nat → String
  | 0, attempts => sprintf06 (Intn 700000 (rnd (attempts + 1)) + 200000)
  | fuel + 1, attempts =>
    let code := sprintf06 (Intn 900000 (rnd attempts) + 100000)
    let attempts1 := attempts + 1
    if attempts1 ≥ maxAttempts then
      sprintf06 (Intn 700000 (rnd attempts1) + 200000)
    else if !activeCodes code then
      code
    else
      generateLoop activeCodes rnd fuel attempts1

/-- The code made from the primary draw numbered `i` (line 218). -/
def primaryCode (rnd : Nat → Nat) (i : Nat) : String :=
  sprintf06 (Intn 900000 (rnd i) + 100000)

/-- The code made from the fallback draw, the eleventh draw of a call (line 223). -/
def fallbackCode (rnd : Nat → Nat) : String :=
  sprintf06 (Intn 700000 (rnd 10) + 200000)

/-- Generate unique 6-digit code: the code returned and the server afterwards. -/
def generateUniqueCode (s : Server) (rnd : Nat → Nat) : String × Server :=
  let code := generateLoop s.activeCodes rnd maxAttempts 0
  (code, { s with activeCodes := setKey s.activeCodes code true })

/-- Clean up expired pending codes. -/
def cleanupExpiredCodes (s : Server) (now : Int) : Server :=
  { s with
    pendingCodes := fun code =>
      match s.pendingCodes code with
      | none => none
      | some data => if Time.Sub now data.CreatedAt > PENDING_CODE_TTL then none else some data }

/-! ## Handlers -/

/-- Goroutines spawned by the handlers (`go func() { time.Sleep(..); .. }()`), with
the variables they capture. -/
inductive Goroutine where
  /-- Lines 449-473: after 1500 ms notify the viewer, after 1000 ms more tell the
  client to start WebRTC. -/
  | pairNotify (viewerWS conn : ConnId) (code : String) (clientInfo : Json) : Goroutine
  /-- Lines 506-516: after 1000 ms tell the reconnected client to restart WebRTC. -/
  | restartConnect (conn : ConnId) : Goroutine
  /-- Lines 533-536 and 544-547: after 500 ms close the connection. -/
  | closeLater (conn : ConnId) : Goroutine
  /-- Lines 643-649: after 50 ms forward the signal to the viewer of the session
  stored under `code` when the signal was received. -/
  | relayToViewer (code : String) (payload : Json) : Goroutine
  /-- Lines 666-672: after 50 ms forward the signal to the client of that session. -/
  | relayToClient (code : String) (payload : Json) : Goroutine

/-- What a handler leaves behind: the server, the calls of `Connection.Send` it made
(target and message, in program order), and the goroutines it started. -/
structure Outcome where
  server : Server
  sent : List (ConnId × ResponseMessage)
  spawned : List Goroutine

/-- The test `p != nil && p.IsOpen()` on a connection pointer. -/
def isLive (s : Server) (p : Option ConnId) : Bool :=
  match p with
  | none => false
  | some c => (s.conns c).IsOpen

/-- The test `v != nil` on an `interface{}` value. -/
def Json.notNil : Json → Bool
  | Json.null => false
  | _ => true

def errorMessage (text : String) : ResponseMessage :=
  createSimpleResponseMessage Error (Json.obj [("message", Json.str text)])

def timestampPayload (now : Int) : Json :=
  Json.obj [("timestamp", Json.num (getCurrentTimestamp now))]

/-- Handle request code message. -/
def handleRequestCode (s : Server) (conn : ConnId) (now : Int) (rnd : Nat → Nat) : Outcome :=
  let code := (generateUniqueCode s rnd).1
  let s1 := (generateUniqueCode s rnd).2
  let pending := setKey s1.pendingCodes code (some { CreatedAt := now, ViewerWS := conn })
  let conns := setConn s1.conns conn { s1.conns conn with SessionCode := code, Role := ViewerRole }
  { server := { s1 with pendingCodes := pending, conns := conns }
    sent := [(conn, createSimpleResponseMessage CodeAssigned (Json.obj [("code", Json.str code)]))]
    spawned := [] }

/-- Handle client registration. -/
def handleClientRegister (s : Server) (conn : ConnId) (msg : Message) (now : Int) : Outcome :=
  let code := msg.Code
  let clientInfo := parsePayload msg.Payload
  match s.pendingCodes code with
  | some pendingData =>
    let viewerWS := pendingData.ViewerWS
    let session : Session :=
      { Client := some conn
        Viewer := some viewerWS
        Info := some { CreatedAt := now, MonitorInfo := Json.null, ProcessInfo := Json.null,
                       ClientInfo := clientInfo } }
    let conns1 := setConn s.conns conn { s.conns conn with Role := ClientRole, SessionCode := code }
    let conns2 := setConn conns1 viewerWS
      { conns1 viewerWS with Role := ViewerRole, SessionCode := code }
    { server :=
        { sessions := setKey s.sessions code (some session)
          pendingCodes := setKey s.pendingCodes code none
          activeCodes := setKey s.activeCodes code true
          conns := conns2 }
      sent := [(conn, createSimpleResponseMessage SessionEstablished (timestampPayload now))]
      spawned := [Goroutine.pairNotify viewerWS conn code clientInfo] }
  | none =>
    match s.activeCodes code, s.sessions code with
    | true, some session =>
      if session.Client = none ∨ isLive s session.Client = false then
        let conns1 := setConn s.conns conn
          { s.conns conn with Role := ClientRole, SessionCode := code }
        let s1 : Server :=
          { s with sessions := setKey s.sessions code (some { session with Client := some conn })
                   conns := conns1 }
        let reconnectPayload := Json.obj
          [("timestamp", Json.num (getCurrentTimestamp now)), ("reconnect", Json.bool true)]
        { server := s1
          sent := (conn, createSimpleResponseMessage SessionEstablished reconnectPayload) ::
            (match session.Viewer with
             | some v =>
               if (s1.conns v).IsOpen then
                 [(v, createSimpleResponseMessage ClientReconnected (timestampPayload now))]
               else []
             | none => [])
          spawned := [Goroutine.restartConnect conn] }
      else if session.Client = some conn then
        let refreshPayload := Json.obj
          [("timestamp", Json.num (getCurrentTimestamp now)), ("refresh", Json.bool true)]
        { server := s
          sent := [(conn, createSimpleResponseMessage SessionEstablished refreshPayload)]
          spawned := [] }
      else
        { server := s
          sent := [(conn, errorMessage "Session already has an active client")]
          spawned := [Goroutine.closeLater conn] }
    | _, _ =>
      { server := s
        sent := [(conn, errorMessage "Invalid code or no viewer waiting for this code")]
        spawned := [Goroutine.closeLater conn] }

/-- Handle viewer registration. -/
def handleViewerRegister (s : Server) (conn : ConnId) (msg : Message) (now : Int) : Outcome :=
  let code := msg.Code
  let becomeViewer := setConn s.conns conn
    { s.conns conn with SessionCode := code, Role := ViewerRole }
  if (s.pendingCodes code).isNone && (s.sessions code).isNone then
    { server :=
        { s with pendingCodes := setKey s.pendingCodes code
                   (some { CreatedAt := now, ViewerWS := conn })
                 conns := becomeViewer }
      sent := []
      spawned := [] }
  else
    match s.sessions code with
    | some session =>
      if session.Viewer ≠ none ∧ session.Viewer ≠ some conn then
        { server := s
          sent := [(conn, errorMessage "Session already has a viewer connected")]
          spawned := [] }
      else
        let s1 : Server :=
          { s with sessions := setKey s.sessions code (some { session with Viewer := some conn })
                   conns := becomeViewer }
        { server := s1
          sent :=
            (match session.Info with
             | some info =>
               if info.MonitorInfo.notNil then
                 [(conn, createSimpleResponseMessage MonitorInfo info.MonitorInfo)]
               else []
             | none => []) ++
            (match session.Client with
             | some c =>
               if (s1.conns c).IsOpen then
                 [(c, createSimpleResponseMessage ViewerConnected (timestampPayload now))]
               else []
             | none => [])
          spawned := [] }
    | none =>
      match s.pendingCodes code with
      | some pendingData =>
        { server :=
            { s with pendingCodes := setKey s.pendingCodes code
                       (some { pendingData with ViewerWS := conn })
                     conns := becomeViewer }
          sent := []
          spawned := [] }
      | none => { server := s, sent := [], spawned := [] }

/-- Handle register message. -/
def handleRegister (s : Server) (conn : ConnId) (msg : Message) (now : Int) : Outcome :=
  if msg.Role = ClientRole then handleClientRegister s conn msg now
  else if msg.Role = ViewerRole then handleViewerRegister s conn msg now
  else { server := s, sent := [], spawned := [] }

/-- Handle WebRTC signaling. -/
def handleSignal (s : Server) (conn : ConnId) (msg : Message) : Outcome :=
  let code := msg.Code
  match s.sessions code with
  | none => { server := s, sent := [], spawned := [] }
  | some session =>
    let payload := parsePayload msg.Payload
    if (s.conns conn).Role = ClientRole ∧ isLive s session.Viewer = true then
      { server := s, sent := [], spawned := [Goroutine.relayToViewer code payload] }
    else if (s.conns conn).Role = ViewerRole ∧ isLive s session.Client = true then
      { server := s, sent := [], spawned := [Goroutine.relayToClient code payload] }
    else
      { server := s, sent := [], spawned := [] }

/-- Handle connect message. -/
def handleConnect (s : Server) (conn : ConnId) (msg : Message) : Outcome :=
  let code := msg.Code
  match s.sessions code with
  | some session =>
    if (s.conns conn).Role = ViewerRole then
      match session.Client with
      | some client =>
        if (s.conns client).IsOpen then
          { server := s
            sent := [(client, createSimpleResponseMessage Connect Json.null)]
            spawned := [] }
        else { server := s, sent := [], spawned := [] }
      | none => { server := s, sent := [], spawned := [] }
    else { server := s, sent := [], spawned := [] }
  | none => { server := s, sent := [], spawned := [] }

/-- Handle display configuration change. -/
def handleDisplayConfigChanged (s : Server) (conn : ConnId) (msg : Message) : Outcome :=
  let code := msg.Code
  match s.sessions code with
  | some session =>
    if (s.conns conn).Role = ClientRole then
      match session.Viewer with
      | some viewer =>
        if (s.conns viewer).IsOpen then
          { server := s
            sent := [(viewer, createSimpleResponseMessage DisplayConfigChanged
                       (parsePayload msg.Payload))]
            spawned := [] }
        else { server := s, sent := [], spawned := [] }
      | none => { server := s, sent := [], spawned := [] }
    else { server := s, sent := [], spawned := [] }
  | none => { server := s, sent := [], spawned := [] }

/-- The part shared by `handleMonitorInfo` and `handleProcessInfo`: store the
payload in the session info with `store`, then forward it to a live viewer. -/
def cacheAndForward (s : Server) (conn : ConnId) (msg : Message) (msgType : MessageType)
    (store : SessionInfo → Json → SessionInfo) : Outcome :=
  let code := msg.Code
  match s.sessions code with
  | some session =>
    if (s.conns conn).Role = ClientRole then
      let payload := parsePayload msg.Payload
      let info := match session.Info with
        | some i => some (store i payload)
        | none => none
      let s1 : Server :=
        { s with sessions := setKey s.sessions code (some { session with Info := info }) }
      match session.Viewer with
      | some viewer =>
        if (s1.conns viewer).IsOpen then
          { server := s1
            sent := [(viewer, createSimpleResponseMessage msgType payload)]
            spawned := [] }
        else { server := s1, sent := [], spawned := [] }
      | none => { server := s1, sent := [], spawned := [] }
    else { server := s, sent := [], spawned := [] }
  | none => { server := s, sent := [], spawned := [] }

/-- Handle monitor info update. -/
def handleMonitorInfo (s : Server) (conn : ConnId) (msg : Message) : Outcome :=
  cacheAndForward s conn msg MonitorInfo (fun i payload => { i with MonitorInfo := payload })

/-- Handle process info update. -/
def handleProcessInfo (s : Server) (conn : ConnId) (msg : Message) : Outcome :=
  cacheAndForward s conn msg ProcessInfo (fun i payload => { i with ProcessInfo := payload })

/-- Result of `json.Unmarshal(msg.Payload, &payload)` for `payload` of type
`map[string]interface{}`: the entries of a JSON object, the nil map otherwise. -/
def parsePayloadMap (raw : Option Json) : Option (List (String × Json)) :=
  match raw with
  | some (Json.obj kvs) => some kvs
  | _ => none

/-- The lookup `payload[key]` in a possibly nil map. -/
def mapLookup (payload : Option (List (String × Json))) (key : String) : Option Json :=
  match payload with
  | some kvs => kvs.lookup key
  | none => none

/-- The comparison `command == "disconnect"` of an `interface{}` with a string. -/
def isDisconnect : Json → Bool
  | Json.str c => c = "disconnect"
  | _ => false

/-- The nil-able map `payload` as an `interface{}` value. -/
def mapToJson (payload : Option (List (String × Json))) : Json :=
  match payload with
  | some kvs => Json.obj kvs
  | none => Json.null

/-- Handle admin command. -/
def handleAdminCommand (s : Server) (conn : ConnId) (msg : Message) : Outcome :=
  if (s.conns conn).Role ≠ ViewerRole then { server := s, sent := [], spawned := [] }
  else
    let code := msg.Code
    let session := s.sessions code
    let payload := parsePayloadMap msg.Payload
    match mapLookup payload "command" with
    | some command =>
      if isDisconnect command then
        let forwarded :=
          match session with
          | some sess =>
            (match sess.Client with
             | some client =>
               if (s.conns client).IsOpen then
                 [(client, createSimpleResponseMessage AdminCommand (mapToJson payload))]
               else []
             | none => [])
          | none => []
        let responsePayload := Json.obj
          [("command", Json.str "disconnect"), ("success", Json.bool true),
           ("message", Json.str "Disconnect request sent to client")]
        { server := s
          sent := forwarded ++ [(conn, createSimpleResponseMessage AdminCommandResponse
                                  responsePayload)]
          spawned := [] }
      else
        match session with
        | some sess =>
          if isLive s sess.Client then
            { server := s
              sent := (match sess.Client with
                       | some client =>
                         [(client, createSimpleResponseMessage AdminCommand (mapToJson payload))]
                       | none => [])
              spawned := [] }
          else
            { server := s, sent := [(conn, errorMessage "Client not connected")], spawned := [] }
        | none => { server := s, sent := [], spawned := [] }
    | none => { server := s, sent := [], spawned := [] }

/-- Lines 870-897 of `handleConnectionClose`: clear the slot the closing connection
occupies and notify the peer that remains. -/
def detachSlot (s : Server) (conn : ConnId) (sessionCode : String) (session : Session)
    (now : Int) : Session × List (ConnId × ResponseMessage) :=
  let disconnectedPayload := Json.obj
    [("timestamp", Json.num (getCurrentTimestamp now)), ("code", Json.str sessionCode)]
  if (s.conns conn).Role = ClientRole ∧ session.Client = some conn then
    ({ session with Client := none },
      match session.Viewer with
      | some v =>
        if (s.conns v).IsOpen then
          [(v, createSimpleResponseMessage ClientDisconnected disconnectedPayload)]
        else []
      | none => [])
  else if (s.conns conn).Role = ViewerRole ∧ session.Viewer = some conn then
    ({ session with Viewer := none },
      match session.Client with
      | some c =>
        if (s.conns c).IsOpen then
          [(c, createSimpleResponseMessage ViewerDisconnected disconnectedPayload)]
        else []
      | none => [])
  else (session, [])

/-- Lines 866-907 of `handleConnectionClose`: the session part. -/
def closeSession (s : Server) (conn : ConnId) (sessionCode : String) (now : Int) : Outcome :=
  match s.sessions sessionCode with
  | some session =>
    let session1 := (detachSlot s conn sessionCode session now).1
    let sent := (detachSlot s conn sessionCode session now).2
    if session1.Client = none ∧ session1.Viewer = none then
      { server := { s with sessions := setKey s.sessions sessionCode none
                           activeCodes := setKey s.activeCodes sessionCode false }
        sent := sent
        spawned := [] }
    else
      { server := { s with sessions := setKey s.sessions sessionCode (some session1) }
        sent := sent
        spawned := [] }
  | none => { server := s, sent := [], spawned := [] }

/-- Handle connection close. -/
def handleConnectionClose (s : Server) (conn : ConnId) (now : Int) : Outcome :=
  let sessionCode := (s.conns conn).SessionCode
  if sessionCode ≠ "" then
    let o := closeSession s conn sessionCode now
    let s1 := o.server
    match s1.pendingCodes sessionCode with
    | some pendingData =>
      if pendingData.ViewerWS = conn then
        { o with server := { s1 with pendingCodes := setKey s1.pendingCodes sessionCode none } }
      else o
    | none => o
  else { server := s, sent := [], spawned := [] }

/-- Process individual message. -/
def processMessage (s : Server) (conn : ConnId) (msg : Message) (now : Int)
    (rnd : Nat → Nat) : Outcome :=
  if msg.MsgType = RequestCode then handleRequestCode s conn now rnd
  else if msg.MsgType = Register then handleRegister s conn msg now
  else if msg.MsgType = Signal then handleSignal s conn msg
  else if msg.MsgType = Connect then handleConnect s conn msg
  else if msg.MsgType = DisplayConfigChanged then handleDisplayConfigChanged s conn msg
  else if msg.MsgType = MonitorInfo then handleMonitorInfo s conn msg
  else if msg.MsgType = ProcessInfo then handleProcessInfo s conn msg
  else if msg.MsgType = AdminCommand then handleAdminCommand s conn msg
  else { server := s, sent := [(conn, errorMessage "Unknown message type")], spawned := [] }

/-- The deferred teardown of `handleConnection`: the close handler, then
`connection.Close()`. -/
def connectionClosed (s : Server) (conn : ConnId) (now : Int) : Outcome :=
  let o := handleConnectionClose s conn now
  { o with server := { o.server with
      conns := setConn o.server.conns conn (o.server.conns conn).Close } }

/-- The body of the error-path goroutine once its 500 ms have passed: `conn.Close()`. -/
def closeConnection (s : Server) (conn : ConnId) : Server :=
  { s with conns := setConn s.conns conn (s.conns conn).Close }

/-! ## Goroutines -/

/-- The durations in milliseconds of the successive `time.Sleep` calls of a
goroutine. -/
def Goroutine.sleeps : Goroutine → List Nat
  | Goroutine.pairNotify _ _ _ _ => [1500, 1000]
  | Goroutine.restartConnect _ => [1000]
  | Goroutine.closeLater _ => [500]
  | Goroutine.relayToViewer _ _ => [50]
  | Goroutine.relayToClient _ _ => [50]

/-- Running sums of a list of durations, starting from `start`. -/
def runningSums (start : Nat) : List Nat → List Nat
  | [] => []
  | d :: ds => (start + d) :: runningSums (start + d) ds

/-- The times, in milliseconds after it was started, at which a goroutine wakes
up. -/
def Goroutine.wakeTimes (g : Goroutine) : List Nat := runningSums 0 g.sleeps

/-- The code of lines 645-648 and 668-671: `peer` is the slot `session.Viewer`
(or `session.Client`) as the goroutine reads it; `peer.IsOpen()` on a nil slot
locks the mutex of a nil `*Connection`, a nil pointer dereference. -/
def relaySignal (s : Server) (peer : Option ConnId) (payload : Json) (now : Int) :
    Except String Outcome :=
  match peer with
  | none => Except.error "invalid memory address or nil pointer dereference"
  | some p =>
    if (s.conns p).IsOpen then
      Except.ok { server := s, sent := [(p, createResponseMessage now Signal payload)],
                  spawned := [] }
    else Except.ok { server := s, sent := [], spawned := [] }

/-- The code a goroutine runs after its sleep number `stage` (counting from 0), in
the server state `s` it finds at that moment and with clock reading `now`.
`captured` is the state, at that moment, of the session object the goroutine holds
a pointer to; only the relay goroutines hold one.  A panic is an error. -/
def Goroutine.fire (g : Goroutine) (stage : Nat) (s : Server) (captured : Session)
    (now : Int) : Except String Outcome :=
  match g, stage with
  | Goroutine.pairNotify viewerWS _ code clientInfo, 0 =>
    if (s.conns viewerWS).IsOpen then
      Except.ok
        { server := s
          sent := [(viewerWS, createSimpleResponseMessage ClientConnected
            (Json.obj [("timestamp", Json.num (getCurrentTimestamp now)),
                       ("code", Json.str code), ("clientInfo", clientInfo)]))]
          spawned := [] }
    else Except.ok { server := s, sent := [], spawned := [] }
  | Goroutine.pairNotify _ conn _ _, 1 =>
    if (s.conns conn).IsOpen then
      Except.ok
        { server := s
          sent := [(conn, createSimpleResponseMessage Connect
            (Json.obj [("timestamp", Json.num (getCurrentTimestamp now)),
                       ("message", Json.str "Start WebRTC connection")]))]
          spawned := [] }
    else Except.ok { server := s, sent := [], spawned := [] }
  | Goroutine.restartConnect conn, 0 =>
    if (s.conns conn).IsOpen then
      Except.ok
        { server := s
          sent := [(conn, createSimpleResponseMessage Connect
            (Json.obj [("message", Json.str "Restart WebRTC connection"),
                       ("timestamp", Json.num (getCurrentTimestamp now))]))]
          spawned := [] }
    else Except.ok { server := s, sent := [], spawned := [] }
  | Goroutine.closeLater conn, 0 =>
    Except.ok { server := closeConnection s conn, sent := [], spawned := [] }
  | Goroutine.relayToViewer _ payload, 0 => relaySignal s captured.Viewer payload now
  | Goroutine.relayToClient _ payload, 0 => relaySignal s captured.Client payload now
  | _, _ => Except.ok { server := s, sent := [], spawned := [] }

/-! ## Lock operations of the handlers

The handlers above are atomic steps; the functions below record, for the same
branch a handler takes, the order in which it locks and unlocks the mutexes and
calls `Send`. -/

/-- The mutexes of the server: `Server.mu`, the `mu` of the session stored under a
code, and the `mu` of a connection. -/
inductive Lock where
  | global : Lock
  | session (code : String) : Lock
  | conn (k : ConnId) : Lock
  deriving DecidableEq

/-- One entry of a handler's lock trace: `Lock`/`RLock` of a mutex, its unlock, or
the body of a call of `Connection.Send`. -/
inductive LockOp where
  | acquire (l : Lock) : LockOp
  | release (l : Lock) : LockOp
  | send (k : ConnId) : LockOp
  deriving DecidableEq

/-- A call `k.Send(..)`: lines 69-76. -/
def sendOps (k : ConnId) : List LockOp :=
  [LockOp.acquire (Lock.conn k), LockOp.send k, LockOp.release (Lock.conn k)]

/-- A call `k.IsOpen()`: lines 81-83. -/
def isOpenOps (k : ConnId) : List LockOp :=
  [LockOp.acquire (Lock.conn k), LockOp.release (Lock.conn k)]

/-- The guarded notification `if p != nil && p.IsOpen() { p.Send(..) }`. -/
def notifyOps (s : Server) (p : Option ConnId) : List LockOp :=
  match p with
  | some k => isOpenOps k ++ (if (s.conns k).IsOpen then sendOps k else [])
  | none => []

/-- Lock trace of `handleClientRegister` (lines 401-548): the global lock is taken
first and released by `defer` at the very end. -/
def handleClientRegisterLocks (s : Server) (conn : ConnId) (msg : Message) : List LockOp :=
  let code := msg.Code
  [LockOp.acquire Lock.global] ++
  (match s.pendingCodes code with
   | some _ => sendOps conn
   | none =>
     match s.activeCodes code, s.sessions code with
     | true, some session =>
       [LockOp.acquire (Lock.session code)] ++
       (match session.Client with
        | some c => isOpenOps c
        | none => []) ++
       (if session.Client = none ∨ isLive s session.Client = false then
          sendOps conn ++ notifyOps s session.Viewer
        else if session.Client = some conn then sendOps conn
        else sendOps conn) ++
       [LockOp.release (Lock.session code)]
     | _, _ => sendOps conn) ++
  [LockOp.release Lock.global]

/-- Lock trace of `handleViewerRegister` (lines 555-602). -/
def handleViewerRegisterLocks (s : Server) (conn : ConnId) (msg : Message) : List LockOp :=
  let code := msg.Code
  [LockOp.acquire Lock.global] ++
  (if (s.pendingCodes code).isNone && (s.sessions code).isNone then []
   else
     match s.sessions code with
     | some session =>
       [LockOp.acquire (Lock.session code)] ++
       (if session.Viewer ≠ none ∧ session.Viewer ≠ some conn then sendOps conn
        else
          (match session.Info with
           | some info => if info.MonitorInfo.notNil then sendOps conn else []
           | none => []) ++
          notifyOps s session.Client) ++
       [LockOp.release (Lock.session code)]
     | none => []) ++
  [LockOp.release Lock.global]

/-- Lock trace of `handleConnectionClose` (lines 860-915).  The session lock is
released by `defer`, that is when the function returns, after the pending check of
lines 910-914. -/
def handleConnectionCloseLocks (s : Server) (conn : ConnId) (now : Int) : List LockOp :=
  let sessionCode := (s.conns conn).SessionCode
  if sessionCode ≠ "" then
    [LockOp.acquire Lock.global, LockOp.release Lock.global] ++
    (match s.sessions sessionCode with
     | some session =>
       [LockOp.acquire (Lock.session sessionCode)] ++
       (if (s.conns conn).Role = ClientRole ∧ session.Client = some conn then
          notifyOps s session.Viewer
        else if (s.conns conn).Role = ViewerRole ∧ session.Viewer = some conn then
          notifyOps s session.Client
        else []) ++
       (if (detachSlot s conn sessionCode session now).1.Client = none ∧
           (detachSlot s conn sessionCode session now).1.Viewer = none then
          [LockOp.acquire Lock.global, LockOp.release Lock.global]
        else [])
     | none => []) ++
    [LockOp.acquire Lock.global, LockOp.release Lock.global] ++
    (match s.sessions sessionCode with
     | some _ => [LockOp.release (Lock.session sessionCode)]
     | none => [])
  else []

/-- Lock trace of `handleMonitorInfo` (lines 737-760): look up under the global
lock, update under the session lock, send with neither held. -/
def handleMonitorInfoLocks (s : Server) (conn : ConnId) (msg : Message) : List LockOp :=
  let code := msg.Code
  [LockOp.acquire Lock.global, LockOp.release Lock.global] ++
  (match s.sessions code with
   | some session =>
     if (s.conns conn).Role = ClientRole then
       [LockOp.acquire (Lock.session code), LockOp.release (Lock.session code)] ++
       notifyOps s session.Viewer
     else []
   | none => [])

def Lock.isSession : Lock → Bool
  | Lock.session _ => true
  | _ => false

/-- Whether, scanning the trace with the locks in `held` held at its start, the
global lock is acquired at a moment when a session lock is held. -/
def acquiresGlobalUnderSession : List Lock → List LockOp → Bool
  | _, [] => false
  | held, LockOp.acquire l :: rest =>
    (l == Lock.global && held.any Lock.isSession) ||
      acquiresGlobalUnderSession (l :: held) rest
  | held, LockOp.release l :: rest => acquiresGlobalUnderSession (held.erase l) rest
  | held, LockOp.send _ :: rest => acquiresGlobalUnderSession held rest

/-- Whether, scanning the trace with the locks in `held` held at its start, a call
of `Send` runs at a moment when the global lock is held. -/
def sendsUnderGlobal : List Lock → List LockOp → Bool
  | _, [] => false
  | held, LockOp.acquire l :: rest => sendsUnderGlobal (l :: held) rest
  | held, LockOp.release l :: rest => sendsUnderGlobal (held.erase l) rest
  | held, LockOp.send _ :: rest => held.contains Lock.global || sendsUnderGlobal held rest

/-! ## The server as a transition system -/

/-- What can happen to the server: an inbound envelope on a connection (with the
clock reading and the random draws its handler sees), a connection whose read loop
ends, a tick of the cleanup routine, and the delayed close of the error path. -/
inductive Event where
  | message (conn : ConnId) (msg : Message) (now : Int) (rnd : Nat → Nat) : Event
  | closed (conn : ConnId) (now : Int) : Event
  | cleanup (now : Int) : Event
  | delayedClose (conn : ConnId) : Event

def step (s : Server) : Event → Server
  | Event.message conn msg now rnd => (processMessage s conn msg now rnd).server
  | Event.closed conn now => (connectionClosed s conn now).server
  | Event.cleanup now => cleanupExpiredCodes s now
  | Event.delayedClose conn => closeConnection s conn

def run (s : Server) : List Event → Server
  | [] => s
  | e :: es => run (step s e) es

/-- States the server can be in, starting from `NewServer`. -/
def Reachable (s : Server) : Prop := ∃ evs : List Event, run NewServer evs = s

/-! ## Sample inputs

Concrete envelopes, draws and states on which the theorems below are evaluated. -/

/-- A `requestCode` envelope. -/
def requestCodeMsg : Message :=
  { MsgType := RequestCode, Code := "", Payload := none, Role := "" }

/-- The envelope `register role=client code=485102 payload={name: c1}`. -/
def registerClientMsg : Message :=
  { MsgType := Register, Code := "485102",
    Payload := some (Json.obj [("name", Json.str "c1")]), Role := ClientRole }

/-- The envelope `register role=viewer code=485102`. -/
def registerViewerMsg : Message :=
  { MsgType := Register, Code := "485102", Payload := none, Role := ViewerRole }

/-- Draws whose every primary draw yields the code `485102`. -/
def draws485102 : Nat → Nat := fun _ => 385102

/-- Connection 1 has requested a code and holds `485102` pending. -/
def pendingState : Server :=
  run NewServer [Event.message 1 requestCodeMsg 0 draws485102]

/-- Connection 2 has then registered as client: session `485102` pairs client 2
with viewer 1. -/
def pairedState : Server :=
  run NewServer [Event.message 1 requestCodeMsg 0 draws485102,
                 Event.message 2 registerClientMsg 1000000 draws485102]

/-- Thirty-one minutes after time 0, in nanoseconds. -/
def after31Minutes : Int := 1860000000000

/-- Connection 1 has requested a code with draws that yield `200000`. -/
def active200000 : Server :=
  run NewServer [Event.message 1 requestCodeMsg 0 (fun _ => 100000)]

/-- Draws whose first nine primary draws yield `200000`, whose tenth primary draw
yields `100000` and whose fallback draw yields `200000`. -/
def drawsTenthFree : Nat → Nat := fun i => if i < 9 then 100000 else 0

/-- No session in the table has both slots nil. -/
def SlotInv (s : Server) : Prop :=
  ∀ c sess, s.sessions c = some sess → sess.Client ≠ none ∨ sess.Viewer ≠ none

/-- Every key of `sessions` is a member of `activeCodes`. -/
def SessionsActive (s : Server) : Prop :=
  ∀ c sess, s.sessions c = some sess → s.activeCodes c = true

/-- Session `485102` after its client, connection 2, has gone: only viewer 1 is left. -/
def halfOpenState : Server :=
  run NewServer [Event.message 1 requestCodeMsg 0 draws485102,
                 Event.message 2 registerClientMsg 1000000 draws485102,
                 Event.closed 2 2000000]

/-- Connection 1 has reserved the code `485102` of its own choosing. -/
def viewerReservedState : Server :=
  run NewServer [Event.message 1 registerViewerMsg 0 draws485102]

/-- No step of the run of `evs` from `s` evicts a session stored under `c`: none
finds a session under `c` and leaves none there. -/
def noEviction (c : String) : Server → List Event → Bool
  | _, [] => true
  | s, e :: es =>
    !((s.sessions c).isSome && ((step s e).sessions c).isNone) && noEviction c (step s e) es

/-- A run in which no session is evicted: viewer 1 reserves 485102, client 2
pairs, connection 3 is refused as viewer and closes, client 2 goes, the reaper
runs. -/
def sampleTrace : List Event :=
  [Event.message 1 registerViewerMsg 0 draws485102,
   Event.message 2 registerClientMsg 1000000 draws485102,
   Event.message 3 registerViewerMsg 2000000 draws485102,
   Event.closed 3 3000000,
   Event.closed 2 4000000,
   Event.cleanup after31Minutes]

/-- Draws whose ten primary draws and whose fallback draw all yield `485102`. -/
def drawsCollide : Nat → Nat := fun i => if i < 10 then 385102 else 285102

/-- After session `485102` is paired, connection 3 requests a code with
`drawsCollide`. -/
def collidedState : Server :=
  run NewServer [Event.message 1 requestCodeMsg 0 draws485102,
                 Event.message 2 registerClientMsg 1000000 draws485102,
                 Event.message 3 requestCodeMsg 2000000 drawsCollide]

/-- No code is a key of both `pendingCodes` and `sessions`. -/
def PendingDisjoint (s : Server) : Prop :=
  ∀ c p, s.pendingCodes c = some p → s.sessions c = none

/-- The event, if it is a `requestCode` envelope, is answered with a code that was
not in `activeCodes`. -/
def freshCode (s : Server) : Event → Bool
  | Event.message _ msg _ rnd =>
    !(msg.MsgType == RequestCode) || !(s.activeCodes (generateUniqueCode s rnd).1)
  | _ => true

/-- Along the run of `evs` from `s`, no `requestCode` is answered with a code that
was already in `activeCodes`. -/
def noCollision : Server → List Event → Bool
  | _, [] => true
  | s, e :: es => freshCode s e && noCollision (step s e) es

/-- Every connection in a session slot, and the viewer of every pending entry, has
the code it is stored under as its `SessionCode` and has been given a role. -/
def Bound (s : Server) : Prop :=
  (∀ c sess k, s.sessions c = some sess → sess.Client = some k →
    (s.conns k).SessionCode = c ∧ (s.conns k).Role ≠ "") ∧
  (∀ c sess k, s.sessions c = some sess → sess.Viewer = some k →
    (s.conns k).SessionCode = c ∧ (s.conns k).Role ≠ "") ∧
  (∀ c p, s.pendingCodes c = some p →
    (s.conns p.ViewerWS).SessionCode = c ∧ (s.conns p.ViewerWS).Role ≠ "")

/-- The connection `k` is referenced under the code `c`: it occupies a slot of the
session stored under `c` or is the viewer of the pending entry for `c`. -/
def Ref (s : Server) (c : String) (k : ConnId) : Prop :=
  (∃ sess, s.sessions c = some sess ∧ (sess.Client = some k ∨ sess.Viewer = some k)) ∨
  (∃ p, s.pendingCodes c = some p ∧ p.ViewerWS = k)

/-- The event, if it is a `requestCode` or `register` envelope, comes from a
connection whose role is still unassigned. -/
def registersUnassigned (s : Server) : Event → Bool
  | Event.message conn msg _ _ =>
    !(msg.MsgType == RequestCode || msg.MsgType == Register) || (s.conns conn).Role == ""
  | _ => true

/-- Along the run of `evs` from `s`, `requestCode` and `register` envelopes come
only from connections whose role is unassigned when they are handled. -/
def disciplined : Server → List Event → Bool
  | _, [] => true
  | s, e :: es => registersUnassigned s e && disciplined (step s e) es

/-- After session `485102` is paired, its viewer, connection 1, requests a code
again and gets `485103`. -/
def reboundState : Server :=
  run NewServer [Event.message 1 requestCodeMsg 0 draws485102,
                 Event.message 2 registerClientMsg 1000000 draws485102,
                 Event.message 1 requestCodeMsg 2000000 (fun _ => 385103)]

/-- The envelope `adminCommand code=485102 payload={command: disconnect}`. -/
def adminDisconnectMsg : Message :=
  { MsgType := AdminCommand, Code := "485102",
    Payload := some (Json.obj [("command", Json.str "disconnect")]), Role := "" }

/-- The envelope `adminCommand code=485102 payload={command: restart}`. -/
def adminRestartMsg : Message :=
  { MsgType := AdminCommand, Code := "485102",
    Payload := some (Json.obj [("command", Json.str "restart")]), Role := "" }

/-- The envelope `signal code=485102 payload={type: offer, sdp: v=0}`. -/
def signalOfferMsg : Message :=
  { MsgType := Signal, Code := "485102",
    Payload := some (Json.obj [("type", Json.str "offer"), ("sdp", Json.str "v=0")]),
    Role := "" }

/-- Session `485102` after its viewer, connection 1, has gone: only client 2 is
left. -/
def viewerGoneState : Server :=
  run NewServer [Event.message 1 requestCodeMsg 0 draws485102,
                 Event.message 2 registerClientMsg 1000000 draws485102,
                 Event.closed 1 2010000]

/-- Connection 1 has requested code `485102` and then registered as the client of
its own pending code: it fills both slots of session `485102`. -/
def selfPairedState : Server :=
  run NewServer [Event.message 1 requestCodeMsg 0 draws485102,
                 Event.message 1 registerClientMsg 1000000 draws485102]

/-- The envelope `monitorInfo code=485102 payload={monitors: 2}`. -/
def monitorInfoMsg : Message :=
  { MsgType := MonitorInfo, Code := "485102",
    Payload := some (Json.obj [("monitors", Json.num 2)]), Role := "" }

/-! # Theorems -/

/-! ## Map updates and dispatch -/

theorem setKey_same {β : Type} (m : String → β) (k : String) (v : β) : setKey m k v k = v := by
  simp [setKey]

theorem setKey_other {β : Type} (m : String → β) (k x : String) (v : β) (h : x ≠ k) :
    setKey m k v x = m x := by
  simp [setKey, h]

theorem processMessage_register_client (s : Server) (conn : ConnId) (msg : Message)
    (now : Int) (rnd : Nat → Nat) (hT : msg.MsgType = Register) (hR : msg.Role = ClientRole) :
    processMessage s conn msg now rnd = handleClientRegister s conn msg now := by
  simp [processMessage, handleRegister, hT, hR, Register, RequestCode]

theorem processMessage_register_viewer (s : Server) (conn : ConnId) (msg : Message)
    (now : Int) (rnd : Nat → Nat) (hT : msg.MsgType = Register) (hR : msg.Role = ViewerRole) :
    processMessage s conn msg now rnd = handleViewerRegister s conn msg now := by
  simp [processMessage, handleRegister, hT, hR, Register, RequestCode, ClientRole, ViewerRole]

/-! ## Client registration on a pending code -/

/-- C1 (counterexample): connection 1 holds code 485102 pending as its viewer and
then itself sends `register role=client code=485102`; afterwards its role is
viewer, not client. -/
theorem pairing_same_connection_role :
    pendingState.pendingCodes "485102" = some { CreatedAt := 0, ViewerWS := 1 } ∧
    ((processMessage pendingState 1 registerClientMsg 1000000 draws485102).server.conns 1).Role
      ≠ ClientRole := by
  constructor
  · rfl
  · decide

/-- C1 (amended): when `pendingCodes` holds an entry for the code `C` of the
envelope with stored viewer `V`, handling `register role=client code=C` from `K`
removes the pending entry, stores under `sessions[C]` the session with client `K`,
viewer `V` and `info.clientInfo` the register payload, has `C` in `activeCodes`,
sets `K.sessionCode = C`, `V.role = viewer`, `V.sessionCode = C` and `K.role = client`
when `K` is not `V` (viewer when it is), leaves the pending and session entries of
every other code unchanged and makes exactly one call of `Send`: a
`sessionEstablished` to `K`. -/
theorem handleClientRegister_pairs_pending (s : Server) (K : ConnId) (msg : Message)
    (now : Int) (rnd : Nat → Nat) (p : PendingCode)
    (hT : msg.MsgType = Register) (hR : msg.Role = ClientRole)
    (hP : s.pendingCodes msg.Code = some p) :
    (processMessage s K msg now rnd).server.pendingCodes msg.Code = none ∧
    (processMessage s K msg now rnd).server.sessions msg.Code =
      some { Client := some K, Viewer := some p.ViewerWS,
             Info := some { CreatedAt := now, MonitorInfo := Json.null,
                            ProcessInfo := Json.null,
                            ClientInfo := parsePayload msg.Payload } } ∧
    (processMessage s K msg now rnd).server.activeCodes msg.Code = true ∧
    ((processMessage s K msg now rnd).server.conns K).SessionCode = msg.Code ∧
    ((processMessage s K msg now rnd).server.conns K).Role =
      (if K = p.ViewerWS then ViewerRole else ClientRole) ∧
    ((processMessage s K msg now rnd).server.conns p.ViewerWS).Role = ViewerRole ∧
    ((processMessage s K msg now rnd).server.conns p.ViewerWS).SessionCode = msg.Code ∧
    (∀ c, c ≠ msg.Code →
      (processMessage s K msg now rnd).server.pendingCodes c = s.pendingCodes c ∧
      (processMessage s K msg now rnd).server.sessions c = s.sessions c) ∧
    (processMessage s K msg now rnd).sent =
      [(K, createSimpleResponseMessage SessionEstablished
            (Json.obj [("timestamp", Json.num (getCurrentTimestamp now))]))] := by
  rw [processMessage_register_client s K msg now rnd hT hR]
  simp only [handleClientRegister, hP]
  refine ⟨?_, ?_, ?_, ?_, ?_, ?_, ?_, ?_, ?_⟩
  · simp [setKey]
  · simp [setKey]
  · simp [setKey]
  · by_cases h : K = p.ViewerWS <;> simp [setConn, h]
  · by_cases h : K = p.ViewerWS <;> simp [setConn, h]
  · simp [setConn]
  · simp [setConn]
  · intro c hc
    simp [setKey, hc]
  · simp [timestampPayload]

/-- C1 (witness): client 2 registers on the code 485102 that viewer 1 holds
pending. -/
theorem handleClientRegister_pairs_pending_witness :
    registerClientMsg.MsgType = Register ∧ registerClientMsg.Role = ClientRole ∧
    pendingState.pendingCodes registerClientMsg.Code = some { CreatedAt := 0, ViewerWS := 1 } ∧
    (processMessage pendingState 2 registerClientMsg 1000000 draws485102).server.sessions "485102" =
      some { Client := some 2, Viewer := some 1,
             Info := some { CreatedAt := 1000000, MonitorInfo := Json.null,
                            ProcessInfo := Json.null,
                            ClientInfo := Json.obj [("name", Json.str "c1")] } } ∧
    (processMessage pendingState 2 registerClientMsg 1000000 draws485102).sent =
      [(2, createSimpleResponseMessage SessionEstablished
            (Json.obj [("timestamp", Json.num 1)]))] :=
  have h := handleClientRegister_pairs_pending pendingState 2 registerClientMsg 1000000
    draws485102 { CreatedAt := 0, ViewerWS := 1 } rfl rfl rfl
  ⟨rfl, rfl, rfl, h.2.1, h.2.2.2.2.2.2.2.2⟩

/-! ## The reaper -/

theorem Time.Sub_gt_ttl (t u : Int) :
    Time.Sub t u > PENDING_CODE_TTL ↔ t - u > PENDING_CODE_TTL := by
  have h1 : maxDuration = 9223372036854775807 := by norm_num [maxDuration]
  have h2 : minDuration = -9223372036854775808 := by norm_num [minDuration]
  have h3 : PENDING_CODE_TTL = 1800000000000 := by norm_num [PENDING_CODE_TTL]
  unfold Time.Sub
  rw [h1, h2, h3]
  split_ifs <;> omega

theorem cleanupExpiredCodes_entries (s : Server) (now : Int) (c : String) (d : PendingCode) :
    (cleanupExpiredCodes s now).pendingCodes c = some d ↔
      s.pendingCodes c = some d ∧ now - d.CreatedAt ≤ PENDING_CODE_TTL := by
  simp only [cleanupExpiredCodes]
  cases hp : s.pendingCodes c with
  | none => simp
  | some e =>
    simp only
    by_cases hexp : Time.Sub now e.CreatedAt > PENDING_CODE_TTL
    · rw [if_pos hexp]
      rw [Time.Sub_gt_ttl] at hexp
      constructor
      · intro h; cases h
      · rintro ⟨h1, h2⟩
        cases h1
        omega
    · rw [if_neg hexp]
      rw [Time.Sub_gt_ttl] at hexp
      constructor
      · intro h
        cases h
        exact ⟨rfl, by omega⟩
      · rintro ⟨h1, -⟩
        exact h1

/-- C8: `cleanupExpiredCodes` removes exactly the pending entries older than
thirty minutes (1800000000000 ns): such an entry is gone afterwards, an entry whose
age is at most thirty minutes is still there unchanged, every entry present
afterwards was present before and is not expired, and the sessions table is
unchanged. -/
theorem cleanupExpiredCodes_removes_exactly (s : Server) (now : Int) :
    PENDING_CODE_TTL = 1800000000000 ∧
    (∀ c d, s.pendingCodes c = some d → now - d.CreatedAt > PENDING_CODE_TTL →
      (cleanupExpiredCodes s now).pendingCodes c = none) ∧
    (∀ c d, s.pendingCodes c = some d → now - d.CreatedAt ≤ PENDING_CODE_TTL →
      (cleanupExpiredCodes s now).pendingCodes c = some d) ∧
    (∀ c d, (cleanupExpiredCodes s now).pendingCodes c = some d →
      s.pendingCodes c = some d ∧ now - d.CreatedAt ≤ PENDING_CODE_TTL) ∧
    (cleanupExpiredCodes s now).sessions = s.sessions := by
  refine ⟨by norm_num [PENDING_CODE_TTL], ?_, ?_, ?_, rfl⟩
  · intro c d hd hexp
    simp [cleanupExpiredCodes, hd, (Time.Sub_gt_ttl now d.CreatedAt).2 hexp]
  · intro c d hd hle
    have hn : ¬ Time.Sub now d.CreatedAt > PENDING_CODE_TTL := by
      rw [Time.Sub_gt_ttl]; omega
    simp only [cleanupExpiredCodes, hd]
    rw [if_neg hn]
  · intro c d hd
    simp only [cleanupExpiredCodes] at hd
    cases hp : s.pendingCodes c with
    | none => simp [hp] at hd
    | some e =>
      simp only [hp] at hd
      by_cases hexp : Time.Sub now e.CreatedAt > PENDING_CODE_TTL
      · simp [hexp] at hd
      · rw [if_neg hexp] at hd
        have hed : e = d := Option.some.inj hd
        subst hed
        rw [Time.Sub_gt_ttl] at hexp
        exact ⟨rfl, by omega⟩

/-- C8 (witness): the code 485102 reserved at time 0 is kept by a cleanup that
runs exactly thirty minutes later and removed by one that runs after thirty-one
minutes. -/
theorem cleanupExpiredCodes_removes_exactly_witness :
    pendingState.pendingCodes "485102" = some { CreatedAt := 0, ViewerWS := 1 } ∧
    (cleanupExpiredCodes pendingState 1800000000000).pendingCodes "485102" =
      some { CreatedAt := 0, ViewerWS := 1 } ∧
    (cleanupExpiredCodes pendingState after31Minutes).pendingCodes "485102" = none :=
  ⟨rfl,
   (cleanupExpiredCodes_removes_exactly pendingState 1800000000000).2.2.1 "485102"
     { CreatedAt := 0, ViewerWS := 1 } rfl (by decide),
   (cleanupExpiredCodes_removes_exactly pendingState after31Minutes).2.1 "485102"
     { CreatedAt := 0, ViewerWS := 1 } rfl (by decide)⟩

/-- C9 (counterexample): the code 485102 is reserved at time 0 and reaped
thirty-one minutes later; the pending entry is deleted, yet the code is still a
member of `activeCodes`. -/
theorem cleanup_leaves_code_active :
    pendingState.pendingCodes "485102" = some { CreatedAt := 0, ViewerWS := 1 } ∧
    (cleanupExpiredCodes pendingState after31Minutes).pendingCodes "485102" = none ∧
    (cleanupExpiredCodes pendingState after31Minutes).activeCodes "485102" = true := by
  refine ⟨rfl, ?_, ?_⟩
  · decide
  · decide

/-- C9 (amended): `cleanupExpiredCodes` does not touch `activeCodes`; the code of
every pending entry it deleted is a member of `activeCodes` afterwards exactly when
it was one before. -/
theorem cleanupExpiredCodes_keeps_activeCodes (s : Server) (now : Int) :
    (cleanupExpiredCodes s now).activeCodes = s.activeCodes ∧
    ∀ c d, s.pendingCodes c = some d → (cleanupExpiredCodes s now).pendingCodes c = none →
      (cleanupExpiredCodes s now).activeCodes c = s.activeCodes c :=
  ⟨rfl, fun _ _ _ _ => rfl⟩

/-- C9 (witness): the reaped code 485102 was active before the cleanup and is
active after it. -/
theorem cleanupExpiredCodes_keeps_activeCodes_witness :
    pendingState.activeCodes "485102" = true ∧
    (cleanupExpiredCodes pendingState after31Minutes).activeCodes "485102" =
      pendingState.activeCodes "485102" :=
  ⟨by decide,
   (cleanupExpiredCodes_keeps_activeCodes pendingState after31Minutes).2 "485102"
     { CreatedAt := 0, ViewerWS := 1 } rfl (by decide)⟩

/-! ## Viewer registration -/

/-- C10: when `sessions[C]` holds a viewer `V1` other than `K`, handling
`register role=viewer code=C` from `K` makes exactly one call of `Send`, the error
"Session already has a viewer connected" to `K`, spawns nothing and leaves the
whole server state (tables, session slots and info, every connection's role and
session code) unchanged. -/
theorem handleViewerRegister_refuses_second_viewer (s : Server) (K V1 : ConnId)
    (msg : Message) (now : Int) (rnd : Nat → Nat) (session : Session)
    (hT : msg.MsgType = Register) (hR : msg.Role = ViewerRole)
    (hS : s.sessions msg.Code = some session) (hV : session.Viewer = some V1)
    (hK : V1 ≠ K) :
    (processMessage s K msg now rnd).sent =
      [(K, createSimpleResponseMessage Error
            (Json.obj [("message", Json.str "Session already has a viewer connected")]))] ∧
    (processMessage s K msg now rnd).spawned = [] ∧
    (processMessage s K msg now rnd).server = s := by
  rw [processMessage_register_viewer s K msg now rnd hT hR]
  simp [handleViewerRegister, hS, hV, hK, errorMessage]

/-- C10 (witness): session 485102 pairs client 2 with viewer 1; connection 3 asks
to be its viewer and is refused. -/
theorem handleViewerRegister_refuses_second_viewer_witness :
    pairedState.sessions "485102" =
      some { Client := some 2, Viewer := some 1,
             Info := some { CreatedAt := 1000000, MonitorInfo := Json.null,
                            ProcessInfo := Json.null,
                            ClientInfo := Json.obj [("name", Json.str "c1")] } } ∧
    (processMessage pairedState 3 registerViewerMsg 2000000 draws485102).sent =
      [(3, createSimpleResponseMessage Error
            (Json.obj [("message", Json.str "Session already has a viewer connected")]))] ∧
    (processMessage pairedState 3 registerViewerMsg 2000000 draws485102).server = pairedState :=
  have h := handleViewerRegister_refuses_second_viewer pairedState 3 1 registerViewerMsg
    2000000 draws485102 _ rfl rfl rfl rfl (by decide)
  ⟨rfl, h.1, h.2.2⟩

/-! ## Code generation -/

/-- What the loop computes: entered with counter `a` and enough iterations left, it
returns the first primary draw among those numbered `a` to 8 that is not active,
and the fallback draw (the draw numbered 10) when there is none.  The draw
numbered 9, the tenth, is consumed but never tested. -/
theorem generateLoop_eq (activeCodes : String → Bool) (rnd : Nat → Nat) (fuel a : Nat)
    (hfuel : a + fuel = 10) (hpos : 0 < fuel) :
    generateLoop activeCodes rnd fuel a =
      match (List.range' a (fuel - 1)).find? (fun i => !activeCodes (primaryCode rnd i)) with
      | some i => primaryCode rnd i
      | none => fallbackCode rnd := by
  induction fuel generalizing a with
  | zero => omega
  | succ n ih =>
    rw [generateLoop]
    simp only [maxAttempts]
    by_cases hlast : n = 0
    · subst hlast
      have ha : a = 9 := by omega
      subst ha
      simp [fallbackCode]
    · have hlt : ¬ a + 1 ≥ 10 := by omega
      rw [if_neg hlt]
      obtain ⟨m, rfl⟩ : ∃ m, n = m + 1 := ⟨n - 1, by omega⟩
      have hp : sprintf06 (Intn 900000 (rnd a) + 100000) = primaryCode rnd a := rfl
      have h1 := ih (a + 1) (by omega) (by omega)
      simp only [Nat.add_sub_cancel] at h1
      simp only [Nat.add_sub_cancel, List.range'_succ, List.find?_cons, hp]
      cases hfree : activeCodes (primaryCode rnd a) with
      | true => simpa using h1
      | false => simp

/-- The code returned by `generateUniqueCode`: the first of the primary draws
numbered 0 to 8 that is not in `activeCodes`, else the fallback draw; primary draws
lie in [100000, 999999] and the fallback draw in [200000, 899999]. -/
theorem generateUniqueCode_returns (s : Server) (rnd : Nat → Nat) :
    (generateUniqueCode s rnd).1 =
      (match (List.range 9).find? (fun i => !s.activeCodes (primaryCode rnd i)) with
       | some i => primaryCode rnd i
       | none => fallbackCode rnd) ∧
    (∀ i, 100000 ≤ Intn 900000 (rnd i) + 100000 ∧ Intn 900000 (rnd i) + 100000 ≤ 999999) ∧
    (200000 ≤ Intn 700000 (rnd 10) + 200000 ∧ Intn 700000 (rnd 10) + 200000 ≤ 899999) := by
  refine ⟨?_, ?_, ?_⟩
  · have h := generateLoop_eq s.activeCodes rnd 10 0 (by omega) (by omega)
    simp only [generateUniqueCode, maxAttempts]
    rw [h, List.range_eq_range']
  · intro i
    have := Nat.mod_lt (rnd i) (show 900000 > 0 by omega)
    simp only [Intn]
    omega
  · have := Nat.mod_lt (rnd 10) (show 700000 > 0 by omega)
    simp only [Intn]
    omega

/-- C7 (failing input): with `200000` the only active code, the first nine primary
draws yield `200000`, the tenth primary draw yields the free code `100000`, and the
fallback draw yields `200000`; `generateUniqueCode` returns `200000`, a code that
was active before the call. -/
theorem generateUniqueCode_discards_tenth_draw :
    (∀ i : Fin 9, active200000.activeCodes
        (sprintf06 (Intn 900000 (drawsTenthFree i) + 100000)) = true) ∧
    active200000.activeCodes (sprintf06 (Intn 900000 (drawsTenthFree 9) + 100000)) = false ∧
    sprintf06 (Intn 900000 (drawsTenthFree 9) + 100000) = "100000" ∧
    (generateUniqueCode active200000 drawsTenthFree).1 = "200000" ∧
    active200000.activeCodes "200000" = true := by
  refine ⟨?_, ?_, ?_, ?_, ?_⟩
  · decide
  · decide
  · decide
  · decide
  · decide

/-! ## Case analysis on a step -/

theorem handleSignal_server (s : Server) (conn : ConnId) (msg : Message) :
    (handleSignal s conn msg).server = s := by
  unfold handleSignal
  simp only
  repeat' split
  all_goals rfl

theorem handleConnect_server (s : Server) (conn : ConnId) (msg : Message) :
    (handleConnect s conn msg).server = s := by
  unfold handleConnect
  simp only
  repeat' split
  all_goals rfl

theorem handleDisplayConfigChanged_server (s : Server) (conn : ConnId) (msg : Message) :
    (handleDisplayConfigChanged s conn msg).server = s := by
  unfold handleDisplayConfigChanged
  simp only
  repeat' split
  all_goals rfl

theorem handleAdminCommand_server (s : Server) (conn : ConnId) (msg : Message) :
    (handleAdminCommand s conn msg).server = s := by
  unfold handleAdminCommand
  simp only
  repeat' split
  all_goals rfl

/-- To establish a property of the server after `processMessage`, it is enough to
establish it for the unchanged server and for the four handlers that write. -/
theorem processMessage_server_cases (P : Server → Prop) (s : Server) (conn : ConnId)
    (msg : Message) (now : Int) (rnd : Nat → Nat) (h0 : P s)
    (h1 : P (handleRequestCode s conn now rnd).server)
    (h2 : P (handleClientRegister s conn msg now).server)
    (h3 : P (handleViewerRegister s conn msg now).server)
    (h4 : ∀ t store, P (cacheAndForward s conn msg t store).server) :
    P (processMessage s conn msg now rnd).server := by
  unfold processMessage
  split_ifs
  · exact h1
  · unfold handleRegister
    split_ifs
    · exact h2
    · exact h3
    · exact h0
  · rw [handleSignal_server]; exact h0
  · rw [handleConnect_server]; exact h0
  · rw [handleDisplayConfigChanged_server]; exact h0
  · exact h4 _ _
  · exact h4 _ _
  · rw [handleAdminCommand_server]; exact h0
  · exact h0

/-- To establish a property of the server after any step, it is enough to
establish it for the unchanged server, the four handlers that write, the close
handler followed by `Close`, the reaper and the delayed close. -/
theorem step_cases (P : Server → Prop) (s : Server) (ev : Event) (h0 : P s)
    (h1 : ∀ conn now rnd, P (handleRequestCode s conn now rnd).server)
    (h2 : ∀ conn msg now, P (handleClientRegister s conn msg now).server)
    (h3 : ∀ conn msg now, P (handleViewerRegister s conn msg now).server)
    (h4 : ∀ conn msg t store, P (cacheAndForward s conn msg t store).server)
    (h5 : ∀ conn now, P (connectionClosed s conn now).server)
    (h6 : ∀ now, P (cleanupExpiredCodes s now))
    (h7 : ∀ conn, P (closeConnection s conn)) :
    P (step s ev) := by
  cases ev with
  | message conn msg now rnd =>
    exact processMessage_server_cases P s conn msg now rnd h0 (h1 conn now rnd)
      (h2 conn msg now) (h3 conn msg now) (h4 conn msg)
  | closed conn now => exact h5 conn now
  | cleanup now => exact h6 now
  | delayedClose conn => exact h7 conn

theorem run_append (s : Server) (evs1 evs2 : List Event) :
    run s (evs1 ++ evs2) = run (run s evs1) evs2 := by
  induction evs1 generalizing s with
  | nil => rfl
  | cons e es ih => simp [run, ih]

/-- Induction along a run: a property that holds at the start and is preserved by
every step holds at the end. -/
theorem run_induction (P : Server → Prop) (hstep : ∀ s ev, P s → P (step s ev))
    (s : Server) (evs : List Event) (h : P s) : P (run s evs) := by
  induction evs generalizing s with
  | nil => exact h
  | cons e es ih => exact ih (step s e) (hstep s e h)

theorem Reachable.induction (P : Server → Prop) (h0 : P NewServer)
    (hstep : ∀ s ev, P s → P (step s ev)) (s : Server) (h : Reachable s) : P s := by
  obtain ⟨evs, rfl⟩ := h
  exact run_induction P hstep NewServer evs h0


theorem handleClientRegister_sessions_cases (s : Server) (conn : ConnId) (msg : Message)
    (now : Int) (c : String) :
    (handleClientRegister s conn msg now).server.sessions c = s.sessions c ∨
    ∃ sess, (handleClientRegister s conn msg now).server.sessions c = some sess ∧
      sess.Client = some conn ∧ c = msg.Code ∧
      (handleClientRegister s conn msg now).server.activeCodes c = true ∧
      ((s.sessions c = none ∨ (s.pendingCodes c).isSome) → sess.Viewer ≠ none) := by
  unfold handleClientRegister
  simp only
  by_cases hc : c = msg.Code
  · subst hc
    repeat' split
    all_goals simp_all [setKey]
  · left
    repeat' split
    all_goals simp [setKey, hc]

theorem handleViewerRegister_sessions_cases (s : Server) (conn : ConnId) (msg : Message)
    (now : Int) (c : String) :
    (handleViewerRegister s conn msg now).server.sessions c = s.sessions c ∨
    ∃ old, s.sessions c = some old ∧ c = msg.Code ∧
      (handleViewerRegister s conn msg now).server.sessions c =
        some { old with Viewer := some conn } := by
  unfold handleViewerRegister
  simp only
  by_cases hc : c = msg.Code
  · subst hc
    repeat' split
    all_goals simp_all [setKey]
  · left
    repeat' split
    all_goals simp [setKey, hc]

theorem handleViewerRegister_activeCodes (s : Server) (conn : ConnId) (msg : Message)
    (now : Int) : (handleViewerRegister s conn msg now).server.activeCodes = s.activeCodes := by
  unfold handleViewerRegister
  simp only
  repeat' split
  all_goals rfl

theorem cacheAndForward_sessions_cases (s : Server) (conn : ConnId) (msg : Message)
    (t : MessageType) (store : SessionInfo → Json → SessionInfo) (c : String) :
    (cacheAndForward s conn msg t store).server.sessions c = s.sessions c ∨
    ∃ old info, s.sessions c = some old ∧
      (cacheAndForward s conn msg t store).server.sessions c = some { old with Info := info } := by
  unfold cacheAndForward
  simp only
  by_cases hc : c = msg.Code
  · subst hc
    repeat' split
    all_goals simp_all [setKey]
  · left
    repeat' split
    all_goals simp [setKey, hc]

theorem cacheAndForward_frame (s : Server) (conn : ConnId) (msg : Message)
    (t : MessageType) (store : SessionInfo → Json → SessionInfo) :
    (cacheAndForward s conn msg t store).server.activeCodes = s.activeCodes ∧
    (cacheAndForward s conn msg t store).server.pendingCodes = s.pendingCodes ∧
    (cacheAndForward s conn msg t store).server.conns = s.conns := by
  unfold cacheAndForward
  simp only
  repeat' split
  all_goals exact ⟨rfl, rfl, rfl⟩

theorem detachSlot_cases (s : Server) (conn : ConnId) (code : String) (old : Session)
    (now : Int) :
    (detachSlot s conn code old now).1 = old ∨
    (old.Client = some conn ∧ (detachSlot s conn code old now).1 = { old with Client := none }) ∨
    (old.Viewer = some conn ∧ (detachSlot s conn code old now).1 = { old with Viewer := none }) := by
  unfold detachSlot
  simp only
  split_ifs with h1 h2
  · exact Or.inr (Or.inl ⟨h1.2, rfl⟩)
  · exact Or.inr (Or.inr ⟨h2.2, rfl⟩)
  · exact Or.inl rfl

theorem closeSession_frame (s : Server) (conn : ConnId) (code : String) (now : Int) :
    (closeSession s conn code now).server.pendingCodes = s.pendingCodes ∧
    (closeSession s conn code now).server.conns = s.conns := by
  unfold closeSession
  simp only
  repeat' split
  all_goals exact ⟨rfl, rfl⟩

theorem closeSession_cases (s : Server) (conn : ConnId) (code : String) (now : Int)
    (c : String) :
    ((closeSession s conn code now).server.sessions c = s.sessions c ∧
     (closeSession s conn code now).server.activeCodes c = s.activeCodes c) ∨
    ∃ old, s.sessions c = some old ∧ c = code ∧
      (((detachSlot s conn c old now).1.Client = none ∧
        (detachSlot s conn c old now).1.Viewer = none ∧
        (closeSession s conn code now).server.sessions c = none ∧
        (closeSession s conn code now).server.activeCodes c = false) ∨
       (¬ ((detachSlot s conn c old now).1.Client = none ∧
           (detachSlot s conn c old now).1.Viewer = none) ∧
        (closeSession s conn code now).server.sessions c =
          some (detachSlot s conn c old now).1 ∧
        (closeSession s conn code now).server.activeCodes c = s.activeCodes c)) := by
  unfold closeSession
  simp only
  by_cases hc : c = code
  · subst hc
    cases hs : s.sessions c with
    | none => left; simp [hs]
    | some old =>
      right
      refine ⟨old, rfl, rfl, ?_⟩
      simp only
      split_ifs with hb
      · left; exact ⟨hb.1, hb.2, by simp [setKey], by simp [setKey]⟩
      · right; exact ⟨hb, by simp [setKey], rfl⟩
  · left
    repeat' split
    all_goals simp [setKey, hc]

theorem handleConnectionClose_conns (s : Server) (conn : ConnId) (now : Int) :
    (handleConnectionClose s conn now).server.conns = s.conns := by
  unfold handleConnectionClose
  simp only
  repeat' split
  all_goals simp [(closeSession_frame s conn _ now).2]

theorem handleConnectionClose_pending_cases (s : Server) (conn : ConnId) (now : Int)
    (c : String) :
    (handleConnectionClose s conn now).server.pendingCodes c = s.pendingCodes c ∨
    (handleConnectionClose s conn now).server.pendingCodes c = none := by
  unfold handleConnectionClose
  simp only
  repeat' split
  all_goals simp only [(closeSession_frame s conn _ now).1, setKey]
  all_goals (try split_ifs)
  all_goals simp

theorem handleConnectionClose_cases (s : Server) (conn : ConnId) (now : Int) (c : String) :
    ((handleConnectionClose s conn now).server.sessions c = s.sessions c ∧
     (handleConnectionClose s conn now).server.activeCodes c = s.activeCodes c) ∨
    ∃ old, s.sessions c = some old ∧ c = (s.conns conn).SessionCode ∧ c ≠ "" ∧
      (((detachSlot s conn c old now).1.Client = none ∧
        (detachSlot s conn c old now).1.Viewer = none ∧
        (handleConnectionClose s conn now).server.sessions c = none ∧
        (handleConnectionClose s conn now).server.activeCodes c = false) ∨
       (¬ ((detachSlot s conn c old now).1.Client = none ∧
           (detachSlot s conn c old now).1.Viewer = none) ∧
        (handleConnectionClose s conn now).server.sessions c =
          some (detachSlot s conn c old now).1 ∧
        (handleConnectionClose s conn now).server.activeCodes c = s.activeCodes c)) := by
  have hsess : (handleConnectionClose s conn now).server.sessions =
      (if (s.conns conn).SessionCode ≠ "" then
        (closeSession s conn (s.conns conn).SessionCode now).server.sessions
       else s.sessions) ∧
      (handleConnectionClose s conn now).server.activeCodes =
      (if (s.conns conn).SessionCode ≠ "" then
        (closeSession s conn (s.conns conn).SessionCode now).server.activeCodes
       else s.activeCodes) := by
    unfold handleConnectionClose
    simp only
    repeat' split
    all_goals exact ⟨rfl, rfl⟩
  rw [hsess.1, hsess.2]
  by_cases hne : (s.conns conn).SessionCode ≠ ""
  · rw [if_pos hne, if_pos hne]
    rcases closeSession_cases s conn (s.conns conn).SessionCode now c with h | ⟨old, h1, h2, h3⟩
    · exact Or.inl h
    · exact Or.inr ⟨old, h1, h2, h2 ▸ hne, h3⟩
  · rw [if_neg hne, if_neg hne]
    exact Or.inl ⟨rfl, rfl⟩

theorem connectionClosed_tables (s : Server) (conn : ConnId) (now : Int) :
    (connectionClosed s conn now).server.sessions =
      (handleConnectionClose s conn now).server.sessions ∧
    (connectionClosed s conn now).server.activeCodes =
      (handleConnectionClose s conn now).server.activeCodes ∧
    (connectionClosed s conn now).server.pendingCodes =
      (handleConnectionClose s conn now).server.pendingCodes :=
  ⟨rfl, rfl, rfl⟩

theorem handleRequestCode_sessions (s : Server) (conn : ConnId) (now : Int) (rnd : Nat → Nat) :
    (handleRequestCode s conn now rnd).server.sessions = s.sessions := rfl

theorem handleRequestCode_activeCodes_mono (s : Server) (conn : ConnId) (now : Int)
    (rnd : Nat → Nat) (c : String) (h : s.activeCodes c = true) :
    (handleRequestCode s conn now rnd).server.activeCodes c = true := by
  simp only [handleRequestCode, generateUniqueCode, setKey]
  split_ifs <;> simp [h]

theorem handleClientRegister_activeCodes_mono (s : Server) (conn : ConnId) (msg : Message)
    (now : Int) (c : String) (h : s.activeCodes c = true) :
    (handleClientRegister s conn msg now).server.activeCodes c = true := by
  unfold handleClientRegister
  simp only
  repeat' split
  all_goals simp only [setKey]
  all_goals (try split_ifs)
  all_goals simp [h]

/-! ## Sessions always keep an occupied slot -/

theorem SlotInv_step (s : Server) (ev : Event) (h : SlotInv s) : SlotInv (step s ev) := by
  refine step_cases SlotInv s ev h ?_ ?_ ?_ ?_ ?_ ?_ ?_
  · intro conn now rnd; exact h
  · intro conn msg now c sess hs
    rcases handleClientRegister_sessions_cases s conn msg now c with h1 | ⟨sess1, h1, h2, -⟩
    · exact h c sess (h1 ▸ hs)
    · rw [h1] at hs
      cases hs
      left; simp [h2]
  · intro conn msg now c sess hs
    rcases handleViewerRegister_sessions_cases s conn msg now c with h1 | ⟨old, -, -, h1⟩
    · exact h c sess (h1 ▸ hs)
    · rw [h1] at hs
      cases hs
      right; simp
  · intro conn msg t store c sess hs
    rcases cacheAndForward_sessions_cases s conn msg t store c with h1 | ⟨old, info, h0, h1⟩
    · exact h c sess (h1 ▸ hs)
    · rw [h1] at hs
      cases hs
      exact h c old h0
  · intro conn now c sess hs
    rw [(connectionClosed_tables s conn now).1] at hs
    rcases handleConnectionClose_cases s conn now c with h1 | ⟨old, h0, -, -, h1 | h1⟩
    · exact h c sess (h1.1 ▸ hs)
    · rw [h1.2.2.1] at hs; cases hs
    · rw [h1.2.1] at hs
      cases hs
      by_contra hcon
      push_neg at hcon
      exact h1.1 hcon
  · intro now; exact h
  · intro conn; exact h

theorem SlotInv_NewServer : SlotInv NewServer := by
  intro c sess hs
  cases hs

/-! ## Every session key is an active code -/

theorem SessionsActive_step (s : Server) (ev : Event) (h : SessionsActive s) :
    SessionsActive (step s ev) := by
  refine step_cases SessionsActive s ev h ?_ ?_ ?_ ?_ ?_ ?_ ?_
  · intro conn now rnd c sess hs
    exact handleRequestCode_activeCodes_mono s conn now rnd c (h c sess hs)
  · intro conn msg now c sess hs
    rcases handleClientRegister_sessions_cases s conn msg now c with h1 | ⟨sess1, -, -, -, h2, -⟩
    · exact handleClientRegister_activeCodes_mono s conn msg now c (h c sess (h1 ▸ hs))
    · exact h2
  · intro conn msg now c sess hs
    rw [handleViewerRegister_activeCodes]
    rcases handleViewerRegister_sessions_cases s conn msg now c with h1 | ⟨old, h0, -, -⟩
    · exact h c sess (h1 ▸ hs)
    · exact h c old h0
  · intro conn msg t store c sess hs
    rw [(cacheAndForward_frame s conn msg t store).1]
    rcases cacheAndForward_sessions_cases s conn msg t store c with h1 | ⟨old, info, h0, -⟩
    · exact h c sess (h1 ▸ hs)
    · exact h c old h0
  · intro conn now c sess hs
    rw [(connectionClosed_tables s conn now).1] at hs
    rw [(connectionClosed_tables s conn now).2.1]
    rcases handleConnectionClose_cases s conn now c with h1 | ⟨old, h0, -, -, h1 | h1⟩
    · rw [h1.2]; exact h c sess (h1.1 ▸ hs)
    · rw [h1.2.2.1] at hs; cases hs
    · rw [h1.2.2]; exact h c old h0
  · intro now; exact h
  · intro conn; exact h

theorem SessionsActive_NewServer : SessionsActive NewServer := by
  intro c sess hs
  cases hs


theorem handleClientRegister_pending_session (s : Server) (conn : ConnId) (msg : Message)
    (now : Int) (p : PendingCode) (hP : s.pendingCodes msg.Code = some p) :
    (handleClientRegister s conn msg now).server.sessions msg.Code =
      some { Client := some conn, Viewer := some p.ViewerWS,
             Info := some { CreatedAt := now, MonitorInfo := Json.null,
                            ProcessInfo := Json.null,
                            ClientInfo := parsePayload msg.Payload } } := by
  simp [handleClientRegister, hP, setKey]

theorem step_creates_full_session (s : Server) (ev : Event) (c : String) (sess : Session)
    (hnone : s.sessions c = none) (hs : (step s ev).sessions c = some sess) :
    sess.Client ≠ none ∧ sess.Viewer ≠ none := by
  revert hs
  refine step_cases (fun t => t.sessions c = some sess → sess.Client ≠ none ∧ sess.Viewer ≠ none)
    s ev ?_ ?_ ?_ ?_ ?_ ?_ ?_ ?_
  · intro hs; rw [hnone] at hs; cases hs
  · intro conn now rnd hs
    rw [handleRequestCode_sessions, hnone] at hs; cases hs
  · intro conn msg now hs
    rcases handleClientRegister_sessions_cases s conn msg now c with h1 | ⟨sess1, h1, h2, -, -, h3⟩
    · rw [h1, hnone] at hs; cases hs
    · rw [h1] at hs
      cases hs
      exact ⟨by simp [h2], h3 (Or.inl hnone)⟩
  · intro conn msg now hs
    rcases handleViewerRegister_sessions_cases s conn msg now c with h1 | ⟨old, h0, -, -⟩
    · rw [h1, hnone] at hs; cases hs
    · rw [hnone] at h0; cases h0
  · intro conn msg t store hs
    rcases cacheAndForward_sessions_cases s conn msg t store c with h1 | ⟨old, info, h0, -⟩
    · rw [h1, hnone] at hs; cases hs
    · rw [hnone] at h0; cases h0
  · intro conn now hs
    rw [(connectionClosed_tables s conn now).1] at hs
    rcases handleConnectionClose_cases s conn now c with h1 | ⟨old, h0, -⟩
    · rw [h1.1, hnone] at hs; cases hs
    · rw [hnone] at h0; cases h0
  · intro now hs
    have h : (cleanupExpiredCodes s now).sessions = s.sessions := rfl
    rw [h, hnone] at hs; cases hs
  · intro conn hs
    have h : (closeConnection s conn).sessions = s.sessions := rfl
    rw [h, hnone] at hs; cases hs

/-- C5: in every reachable state no session of the table has both slots nil; a
session that appears under a code that had none, and the session stored by a client
registration on a pending code, have both slots non-nil; and a connection-close step
whose slot clearing leaves both slots nil removes the session from `sessions` and
its code from `activeCodes` in that same step. -/
theorem sessions_never_empty :
    (∀ s, Reachable s → ∀ c sess, s.sessions c = some sess →
      sess.Client ≠ none ∨ sess.Viewer ≠ none) ∧
    (∀ s ev c sess, s.sessions c = none → (step s ev).sessions c = some sess →
      sess.Client ≠ none ∧ sess.Viewer ≠ none) ∧
    (∀ s conn msg now p sess, s.pendingCodes msg.Code = some p →
      (handleClientRegister s conn msg now).server.sessions msg.Code = some sess →
      sess.Client ≠ none ∧ sess.Viewer ≠ none) ∧
    (∀ s conn now old, (s.conns conn).SessionCode ≠ "" →
      s.sessions (s.conns conn).SessionCode = some old →
      (detachSlot s conn (s.conns conn).SessionCode old now).1.Client = none →
      (detachSlot s conn (s.conns conn).SessionCode old now).1.Viewer = none →
      (step s (Event.closed conn now)).sessions (s.conns conn).SessionCode = none ∧
      (step s (Event.closed conn now)).activeCodes (s.conns conn).SessionCode = false) := by
  refine ⟨?_, ?_, ?_, ?_⟩
  · intro s hs
    exact Reachable.induction SlotInv SlotInv_NewServer SlotInv_step s hs
  · exact step_creates_full_session
  · intro s conn msg now p sess hP hs
    rw [handleClientRegister_pending_session s conn msg now p hP] at hs
    cases hs
    simp
  · intro s conn now old hne hold hc hv
    have h1 : (step s (Event.closed conn now)).sessions =
        (handleConnectionClose s conn now).server.sessions := rfl
    have h2 : (step s (Event.closed conn now)).activeCodes =
        (handleConnectionClose s conn now).server.activeCodes := rfl
    rw [h1, h2]
    rcases handleConnectionClose_cases s conn now (s.conns conn).SessionCode with
      h | ⟨old1, h0, -, -, h | h⟩
    · exfalso
      have h3 : (handleConnectionClose s conn now).server.sessions (s.conns conn).SessionCode =
          (closeSession s conn (s.conns conn).SessionCode now).server.sessions
            (s.conns conn).SessionCode := by
        unfold handleConnectionClose
        simp only
        rw [if_pos hne]
        repeat' split
        all_goals rfl
      rw [h3] at h
      have h4 := h.1
      simp [closeSession, hold, hc, hv, setKey] at h4
    · exact ⟨h.2.2.1, h.2.2.2⟩
    · rw [hold] at h0
      cases h0
      exact absurd ⟨hc, hv⟩ h.1

/-- C5 (witness): session 485102 is reachable with client 2 and viewer 1; after
client 2 has gone, the close of viewer 1 leaves both slots nil and the session and
its code are removed. -/
theorem sessions_never_empty_witness :
    pairedState.sessions "485102" =
      some { Client := some 2, Viewer := some 1,
             Info := some { CreatedAt := 1000000, MonitorInfo := Json.null,
                            ProcessInfo := Json.null,
                            ClientInfo := Json.obj [("name", Json.str "c1")] } } ∧
    ((some 2 : Option ConnId) ≠ none ∨ (some 1 : Option ConnId) ≠ none) ∧
    (halfOpenState.conns 1).SessionCode = "485102" ∧
    (step halfOpenState (Event.closed 1 3000000)).sessions "485102" = none ∧
    (step halfOpenState (Event.closed 1 3000000)).activeCodes "485102" = false :=
  have h := sessions_never_empty.2.2.2 halfOpenState 1 3000000
    { Client := none, Viewer := some 1,
      Info := some { CreatedAt := 1000000, MonitorInfo := Json.null,
                     ProcessInfo := Json.null,
                     ClientInfo := Json.obj [("name", Json.str "c1")] } }
    (by decide) rfl rfl rfl
  ⟨rfl, sessions_never_empty.1 pairedState ⟨_, rfl⟩ "485102" _ rfl, rfl, h.1, h.2⟩


/-! ## Codes in use and `activeCodes` -/

/-- C3 (counterexample): from the empty server, connection 1 sends
`register role=viewer code=485102`; the code is then a key of `pendingCodes` and
not a member of `activeCodes`. -/
theorem viewer_reservation_not_active :
    Reachable viewerReservedState ∧
    viewerReservedState.pendingCodes "485102" = some { CreatedAt := 0, ViewerWS := 1 } ∧
    viewerReservedState.activeCodes "485102" = false :=
  ⟨⟨_, rfl⟩, rfl, rfl⟩

/-- C3 (amended): in every reachable state every key of `sessions` is a member of
`activeCodes`; a code reserved by `requestCode` is a key of `pendingCodes` and a
member of `activeCodes` right after that step; `register role=viewer` leaves
`activeCodes` unchanged, so a code it reserves is in `activeCodes` only if it was
there before. -/
theorem session_keys_active (s : Server) (h : Reachable s) :
    (∀ c sess, s.sessions c = some sess → s.activeCodes c = true) ∧
    (∀ conn now rnd,
      (handleRequestCode s conn now rnd).server.pendingCodes (generateUniqueCode s rnd).1 =
        some { CreatedAt := now, ViewerWS := conn } ∧
      (handleRequestCode s conn now rnd).server.activeCodes (generateUniqueCode s rnd).1 = true) ∧
    (∀ conn msg now,
      (handleViewerRegister s conn msg now).server.activeCodes = s.activeCodes) := by
  refine ⟨?_, ?_, ?_⟩
  · exact Reachable.induction SessionsActive SessionsActive_NewServer SessionsActive_step s h
  · intro conn now rnd
    simp [handleRequestCode, generateUniqueCode, setKey]
  · intro conn msg now
    exact handleViewerRegister_activeCodes s conn msg now

/-- C3 (witness): in the reachable state with session 485102 the code is active. -/
theorem session_keys_active_witness :
    Reachable pairedState ∧ pairedState.activeCodes "485102" = true :=
  ⟨⟨_, rfl⟩, (session_keys_active pairedState ⟨_, rfl⟩).1 "485102" _ rfl⟩

/-! ## A generated code stays active -/

theorem step_keeps_active (s : Server) (ev : Event) (c : String)
    (h : s.activeCodes c = true) :
    (step s ev).activeCodes c = true ∨
    ((s.sessions c).isSome = true ∧ ((step s ev).sessions c).isNone = true) := by
  refine step_cases
    (fun t => t.activeCodes c = true ∨
      ((s.sessions c).isSome = true ∧ (t.sessions c).isNone = true))
    s ev ?_ ?_ ?_ ?_ ?_ ?_ ?_ ?_
  · exact Or.inl h
  · intro conn now rnd
    exact Or.inl (handleRequestCode_activeCodes_mono s conn now rnd c h)
  · intro conn msg now
    exact Or.inl (handleClientRegister_activeCodes_mono s conn msg now c h)
  · intro conn msg now
    left
    rw [handleViewerRegister_activeCodes]; exact h
  · intro conn msg t store
    left
    rw [(cacheAndForward_frame s conn msg t store).1]; exact h
  · intro conn now
    rw [(connectionClosed_tables s conn now).1, (connectionClosed_tables s conn now).2.1]
    rcases handleConnectionClose_cases s conn now c with h1 | ⟨old, h0, -, -, h1 | h1⟩
    · left; rw [h1.2]; exact h
    · right; simp [h0, h1.2.2.1]
    · left; rw [h1.2.2]; exact h
  · intro now; exact Or.inl h
  · intro conn; exact Or.inl h

theorem run_keeps_active (c : String) (evs : List Event) (s : Server)
    (h : s.activeCodes c = true) (hno : noEviction c s evs = true) :
    (run s evs).activeCodes c = true := by
  induction evs generalizing s with
  | nil => exact h
  | cons e es ih =>
    simp only [noEviction, Bool.and_eq_true, Bool.not_eq_true'] at hno
    rcases step_keeps_active s e c h with h1 | h1
    · exact ih (step s e) h1 hno.2
    · have := hno.1
      simp [h1.1, h1.2] at this

/-- C6: the code returned by `generateUniqueCode` is in `activeCodes` right after
the call, and it is still in `activeCodes` after any sequence of handler steps,
connection closes, reaper runs and delayed closes in which no session stored under
it is evicted. -/
theorem generated_code_stays_active (s : Server) (rnd : Nat → Nat) (evs : List Event) :
    (generateUniqueCode s rnd).2.activeCodes (generateUniqueCode s rnd).1 = true ∧
    (noEviction (generateUniqueCode s rnd).1 (generateUniqueCode s rnd).2 evs = true →
      (run (generateUniqueCode s rnd).2 evs).activeCodes (generateUniqueCode s rnd).1 = true) := by
  have h0 : (generateUniqueCode s rnd).2.activeCodes (generateUniqueCode s rnd).1 = true := by
    simp [generateUniqueCode, setKey]
  exact ⟨h0, run_keeps_active _ evs _ h0⟩

/-- C6 (witness): the code 485102 generated on the empty server is still active
after a client has paired on it, a stranger has been refused and closed, the
client has gone and the reaper has run. -/
theorem generated_code_stays_active_witness :
    (generateUniqueCode NewServer draws485102).1 = "485102" ∧
    noEviction "485102" (generateUniqueCode NewServer draws485102).2 sampleTrace = true ∧
    (run (generateUniqueCode NewServer draws485102).2 sampleTrace).activeCodes "485102" = true :=
  ⟨by decide, by decide,
   (generated_code_stays_active NewServer draws485102 sampleTrace).2 (by decide)⟩


/-! ## Pending codes and sessions -/

/-- C2 (failing input): viewer 1 requests a code and gets 485102, client 2 pairs on
it, then connection 3 requests a code while every primary draw yields the active
code 485102 and the fallback draw yields 485102 too; the reached state has 485102
as a key of both `pendingCodes` and `sessions`. -/
theorem fallback_code_pending_and_paired :
    Reachable collidedState ∧
    (generateUniqueCode pairedState drawsCollide).1 = "485102" ∧
    collidedState.pendingCodes "485102" = some { CreatedAt := 2000000, ViewerWS := 3 } ∧
    collidedState.sessions "485102" =
      some { Client := some 2, Viewer := some 1,
             Info := some { CreatedAt := 1000000, MonitorInfo := Json.null,
                            ProcessInfo := Json.null,
                            ClientInfo := Json.obj [("name", Json.str "c1")] } } :=
  ⟨⟨_, rfl⟩, by decide, rfl, rfl⟩


/-! ## Session slots and the session code of their connections -/

/-- The variant of `processMessage_server_cases` that hands each handler the
envelope type and role that select it. -/
theorem processMessage_server_cases_typed (P : Server → Prop) (s : Server) (conn : ConnId)
    (msg : Message) (now : Int) (rnd : Nat → Nat) (h0 : P s)
    (h1 : msg.MsgType = RequestCode → P (handleRequestCode s conn now rnd).server)
    (h2 : msg.MsgType = Register → P (handleClientRegister s conn msg now).server)
    (h3 : msg.MsgType = Register → P (handleViewerRegister s conn msg now).server)
    (h4 : ∀ t store, P (cacheAndForward s conn msg t store).server) :
    P (processMessage s conn msg now rnd).server := by
  unfold processMessage
  split_ifs with a1 a2
  · exact h1 a1
  · unfold handleRegister
    split_ifs
    · exact h2 a2
    · exact h3 a2
    · exact h0
  · rw [handleSignal_server]; exact h0
  · rw [handleConnect_server]; exact h0
  · rw [handleDisplayConfigChanged_server]; exact h0
  · exact h4 _ _
  · exact h4 _ _
  · rw [handleAdminCommand_server]; exact h0
  · exact h0

/-- A state whose connections keep their role and session code, whose sessions
hold only slots they held before and whose pending entries were there before,
inherits `Bound`. -/
theorem Bound_of_sub (s t : Server)
    (hconn : ∀ k, (t.conns k).SessionCode = (s.conns k).SessionCode ∧
      (t.conns k).Role = (s.conns k).Role)
    (hsess : ∀ c sess1, t.sessions c = some sess1 → ∃ sess, s.sessions c = some sess ∧
      (sess1.Client = none ∨ sess1.Client = sess.Client) ∧
      (sess1.Viewer = none ∨ sess1.Viewer = sess.Viewer))
    (hpend : ∀ c p, t.pendingCodes c = some p → s.pendingCodes c = some p)
    (h : Bound s) : Bound t := by
  obtain ⟨hc, hv, hp⟩ := h
  refine ⟨?_, ?_, ?_⟩
  · intro c sess1 k hs hk
    obtain ⟨sess, h1, h2, -⟩ := hsess c sess1 hs
    rw [(hconn k).1, (hconn k).2]
    rcases h2 with h2 | h2
    · rw [h2] at hk; cases hk
    · exact hc c sess k h1 (h2 ▸ hk)
  · intro c sess1 k hs hk
    obtain ⟨sess, h1, -, h2⟩ := hsess c sess1 hs
    rw [(hconn k).1, (hconn k).2]
    rcases h2 with h2 | h2
    · rw [h2] at hk; cases hk
    · exact hv c sess k h1 (h2 ▸ hk)
  · intro c p hs
    rw [(hconn p.ViewerWS).1, (hconn p.ViewerWS).2]
    exact hp c p (hpend c p hs)

theorem Bound_NewServer : Bound NewServer := by
  refine ⟨?_, ?_, ?_⟩
  · intro c sess k hs; cases hs
  · intro c sess k hs; cases hs
  · intro c p hs; cases hs

theorem Bound_cacheAndForward (s : Server) (conn : ConnId) (msg : Message)
    (t : MessageType) (store : SessionInfo → Json → SessionInfo) (h : Bound s) :
    Bound (cacheAndForward s conn msg t store).server := by
  refine Bound_of_sub s _ ?_ ?_ ?_ h
  · intro k
    rw [(cacheAndForward_frame s conn msg t store).2.2]
    exact ⟨rfl, rfl⟩
  · intro c sess1 hs
    rcases cacheAndForward_sessions_cases s conn msg t store c with h1 | ⟨old, info, h0, h1⟩
    · exact ⟨sess1, h1 ▸ hs, Or.inr rfl, Or.inr rfl⟩
    · rw [h1] at hs
      cases hs
      exact ⟨old, h0, Or.inr rfl, Or.inr rfl⟩
  · intro c p hs
    rw [(cacheAndForward_frame s conn msg t store).2.1] at hs
    exact hs

theorem Bound_connectionClosed (s : Server) (conn : ConnId) (now : Int) (h : Bound s) :
    Bound (connectionClosed s conn now).server := by
  refine Bound_of_sub s _ ?_ ?_ ?_ h
  · intro k
    have hc : (connectionClosed s conn now).server.conns =
        setConn s.conns conn (s.conns conn).Close := by
      simp only [connectionClosed, handleConnectionClose_conns]
    rw [hc]
    simp only [setConn]
    split_ifs with hk
    · subst hk; exact ⟨rfl, rfl⟩
    · exact ⟨rfl, rfl⟩
  · intro c sess1 hs
    rw [(connectionClosed_tables s conn now).1] at hs
    rcases handleConnectionClose_cases s conn now c with h1 | ⟨old, h0, -, -, h1 | h1⟩
    · exact ⟨sess1, h1.1 ▸ hs, Or.inr rfl, Or.inr rfl⟩
    · rw [h1.2.2.1] at hs; cases hs
    · rw [h1.2.1] at hs
      cases hs
      refine ⟨old, h0, ?_, ?_⟩
      · rcases detachSlot_cases s conn c old now with h2 | ⟨-, h2⟩ | ⟨-, h2⟩
        · rw [h2]; exact Or.inr rfl
        · rw [h2]; exact Or.inl rfl
        · rw [h2]; exact Or.inr rfl
      · rcases detachSlot_cases s conn c old now with h2 | ⟨-, h2⟩ | ⟨-, h2⟩
        · rw [h2]; exact Or.inr rfl
        · rw [h2]; exact Or.inr rfl
        · rw [h2]; exact Or.inl rfl
  · intro c p hs
    rw [(connectionClosed_tables s conn now).2.2] at hs
    rcases handleConnectionClose_pending_cases s conn now c with h1 | h1
    · exact h1 ▸ hs
    · rw [h1] at hs; cases hs

theorem Bound_cleanup (s : Server) (now : Int) (h : Bound s) :
    Bound (cleanupExpiredCodes s now) := by
  refine Bound_of_sub s _ (fun _ => ⟨rfl, rfl⟩) ?_ ?_ h
  · intro c sess1 hs
    exact ⟨sess1, hs, Or.inr rfl, Or.inr rfl⟩
  · intro c p hs
    simp only [cleanupExpiredCodes] at hs
    cases hp : s.pendingCodes c with
    | none => simp [hp] at hs
    | some e =>
      simp only [hp] at hs
      split_ifs at hs
      exact hs

theorem Bound_closeConnection (s : Server) (conn : ConnId) (h : Bound s) :
    Bound (closeConnection s conn) := by
  refine Bound_of_sub s _ ?_ ?_ ?_ h
  · intro k
    simp only [closeConnection, setConn]
    split_ifs with hk
    · subst hk; exact ⟨rfl, rfl⟩
    · exact ⟨rfl, rfl⟩
  · intro c sess1 hs
    exact ⟨sess1, hs, Or.inr rfl, Or.inr rfl⟩
  · intro c p hs
    exact hs


theorem Bound_iff (s : Server) :
    Bound s ↔ ∀ c k, Ref s c k → (s.conns k).SessionCode = c ∧ (s.conns k).Role ≠ "" := by
  constructor
  · rintro ⟨hc, hv, hp⟩ c k (⟨sess, hs, hk | hk⟩ | ⟨p, hs, hk⟩)
    · exact hc c sess k hs hk
    · exact hv c sess k hs hk
    · exact hk ▸ hp c p hs
  · intro h
    refine ⟨?_, ?_, ?_⟩
    · intro c sess k hs hk
      exact h c k (Or.inl ⟨sess, hs, Or.inl hk⟩)
    · intro c sess k hs hk
      exact h c k (Or.inl ⟨sess, hs, Or.inr hk⟩)
    · intro c p hs
      exact h c p.ViewerWS (Or.inr ⟨p, hs, rfl⟩)

/-- A step that binds the unassigned connection `conn` to `code` and otherwise
only keeps references that existed establishes `Bound` again. -/
theorem Bound_of_assign (s t : Server) (conn : ConnId) (code : String) (h : Bound s)
    (hr : (s.conns conn).Role = "")
    (hconn : ∀ k, k ≠ conn → (t.conns k).SessionCode = (s.conns k).SessionCode ∧
      ((s.conns k).Role ≠ "" → (t.conns k).Role ≠ ""))
    (hnew : (t.conns conn).SessionCode = code ∧ (t.conns conn).Role ≠ "")
    (href : ∀ c k, Ref t c k → (k = conn ∧ c = code) ∨ Ref s c k) : Bound t := by
  rw [Bound_iff] at h ⊢
  intro c k hk
  rcases href c k hk with ⟨h1, h2⟩ | h1
  · subst h1; subst h2; exact hnew
  · have h2 := h c k h1
    have hne : k ≠ conn := by
      intro hkc
      rw [hkc] at h2
      exact h2.2 hr
    exact ⟨(hconn k hne).1.trans h2.1, (hconn k hne).2 h2.2⟩

theorem Bound_handleRequestCode (s : Server) (conn : ConnId) (now : Int) (rnd : Nat → Nat)
    (h : Bound s) (hr : (s.conns conn).Role = "") :
    Bound (handleRequestCode s conn now rnd).server := by
  refine Bound_of_assign s _ conn (generateUniqueCode s rnd).1 h hr ?_ ?_ ?_
  · intro k hk
    simp [handleRequestCode, generateUniqueCode, setConn, hk]
  · simp [handleRequestCode, generateUniqueCode, setConn, ViewerRole]
  · rintro c k (⟨sess, hs, hk⟩ | ⟨p, hs, hk⟩)
    · exact Or.inr (Or.inl ⟨sess, hs, hk⟩)
    · simp only [handleRequestCode, generateUniqueCode, setKey] at hs
      split_ifs at hs with hc
      · cases hs
        exact Or.inl ⟨hk.symm, hc⟩
      · exact Or.inr (Or.inr ⟨p, hs, hk⟩)

theorem Bound_handleViewerRegister (s : Server) (conn : ConnId) (msg : Message) (now : Int)
    (h : Bound s) (hr : (s.conns conn).Role = "") :
    Bound (handleViewerRegister s conn msg now).server := by
  by_cases hsame : (handleViewerRegister s conn msg now).server = s
  · rw [hsame]; exact h
  refine Bound_of_assign s _ conn msg.Code h hr ?_ ?_ ?_
  · intro k hk
    unfold handleViewerRegister
    simp only
    repeat' split
    all_goals simp [setConn, hk]
  · revert hsame
    unfold handleViewerRegister
    simp only
    repeat' split
    all_goals simp [setConn, ViewerRole]
  · rintro c k (⟨sess, hs, hk⟩ | ⟨p, hs, hk⟩)
    · rcases handleViewerRegister_sessions_cases s conn msg now c with h1 | ⟨old, h0, hc, h1⟩
      · exact Or.inr (Or.inl ⟨sess, h1 ▸ hs, hk⟩)
      · rw [h1] at hs
        cases hs
        rcases hk with hk | hk
        · exact Or.inr (Or.inl ⟨old, h0, Or.inl hk⟩)
        · simp only [Option.some.injEq] at hk
          exact Or.inl ⟨hk.symm, hc⟩
    · revert hs
      unfold handleViewerRegister
      simp only
      repeat' split
      all_goals simp only [setKey]
      all_goals (try split_ifs with hc)
      all_goals intro hs
      all_goals first
        | exact Or.inr (Or.inr ⟨p, hs, hk⟩)
        | (cases hs; exact Or.inl ⟨hk.symm, hc⟩)


theorem handleClientRegister_sessions_shape (s : Server) (conn : ConnId) (msg : Message)
    (now : Int) (c : String) :
    (handleClientRegister s conn msg now).server.sessions c = s.sessions c ∨
    (c = msg.Code ∧ ∃ p info, s.pendingCodes c = some p ∧
      (handleClientRegister s conn msg now).server.sessions c =
        some { Client := some conn, Viewer := some p.ViewerWS, Info := info }) ∨
    (c = msg.Code ∧ ∃ old, s.sessions c = some old ∧
      (handleClientRegister s conn msg now).server.sessions c =
        some { old with Client := some conn }) := by
  by_cases hc : c = msg.Code
  · subst hc
    rcases Option.eq_none_or_eq_some (s.pendingCodes msg.Code) with hp | ⟨p, hp⟩
    · rcases Option.eq_none_or_eq_some (s.sessions msg.Code) with hs | ⟨old, hs⟩
      · left
        have h1 : (handleClientRegister s conn msg now).server = s := by
          simp only [handleClientRegister, hp, hs]
          split <;> simp_all
        rw [h1]
      · by_cases ha : s.activeCodes msg.Code = true
        · by_cases hcl : old.Client = none ∨ isLive s old.Client = false
          · right; right
            refine ⟨rfl, old, hs, ?_⟩
            simp [handleClientRegister, hp, hs, ha, hcl, setKey]
          · left
            have h1 : (handleClientRegister s conn msg now).server = s := by
              simp only [handleClientRegister, hp, hs, ha]
              rw [if_neg hcl]
              split_ifs <;> rfl
            rw [h1]
        · left
          have h1 : (handleClientRegister s conn msg now).server = s := by
            simp only [handleClientRegister, hp, hs]
            split <;> simp_all
          rw [h1]
    · right; left
      exact ⟨rfl, p, _, hp, handleClientRegister_pending_session s conn msg now p hp⟩
  · left
    unfold handleClientRegister
    simp only
    repeat' split
    all_goals simp [setKey, hc]

theorem handleClientRegister_pending_cases (s : Server) (conn : ConnId) (msg : Message)
    (now : Int) (c : String) :
    (handleClientRegister s conn msg now).server.pendingCodes c = s.pendingCodes c ∨
    (handleClientRegister s conn msg now).server.pendingCodes c = none := by
  unfold handleClientRegister
  simp only
  repeat' split
  all_goals simp only [setKey]
  all_goals (try split_ifs)
  all_goals simp

theorem Bound_handleClientRegister (s : Server) (conn : ConnId) (msg : Message) (now : Int)
    (h : Bound s) (hr : (s.conns conn).Role = "") :
    Bound (handleClientRegister s conn msg now).server := by
  by_cases hsame : (handleClientRegister s conn msg now).server = s
  · rw [hsame]; exact h
  refine Bound_of_assign s _ conn msg.Code h hr ?_ ?_ ?_
  · intro k hk
    cases hp : s.pendingCodes msg.Code with
    | some p =>
      have hv := h.2.2 msg.Code p hp
      simp only [handleClientRegister, hp, setConn]
      by_cases hkv : k = p.ViewerWS
      · subst hkv
        simp [hk, hv.1, ViewerRole]
      · simp [hk, hkv]
    | none =>
      unfold handleClientRegister
      simp only [hp]
      repeat' split
      all_goals simp [setConn, hk]
  · cases hp : s.pendingCodes msg.Code with
    | some p =>
      have hv := h.2.2 msg.Code p hp
      have hne : conn ≠ p.ViewerWS := by
        intro hcv
        rw [← hcv] at hv
        exact hv.2 hr
      simp [handleClientRegister, hp, setConn, hne, ClientRole]
    | none =>
      revert hsame
      unfold handleClientRegister
      simp only [hp]
      repeat' split
      all_goals simp [setConn, ClientRole]
  · rintro c k (⟨sess, hs, hk⟩ | ⟨p, hs, hk⟩)
    · rcases handleClientRegister_sessions_shape s conn msg now c with
        h1 | ⟨hc, p, info, hp, h1⟩ | ⟨hc, old, h0, h1⟩
      · exact Or.inr (Or.inl ⟨sess, h1 ▸ hs, hk⟩)
      · rw [h1] at hs
        cases hs
        simp only [Option.some.injEq] at hk
        rcases hk with hk | hk
        · exact Or.inl ⟨hk.symm, hc⟩
        · exact Or.inr (Or.inr ⟨p, hp, hk⟩)
      · rw [h1] at hs
        cases hs
        rcases hk with hk | hk
        · simp only [Option.some.injEq] at hk
          exact Or.inl ⟨hk.symm, hc⟩
        · exact Or.inr (Or.inl ⟨old, h0, Or.inr hk⟩)
    · rcases handleClientRegister_pending_cases s conn msg now c with h1 | h1
      · exact Or.inr (Or.inr ⟨p, h1 ▸ hs, hk⟩)
      · rw [h1] at hs; cases hs


theorem Bound_step (s : Server) (ev : Event) (h : Bound s)
    (hd : registersUnassigned s ev = true) : Bound (step s ev) := by
  cases ev with
  | message conn msg now rnd =>
    simp only [registersUnassigned, Bool.or_eq_true, Bool.not_eq_true', beq_iff_eq,
      Bool.or_eq_false_iff, beq_eq_false_iff_ne] at hd
    have hrole : (msg.MsgType = RequestCode ∨ msg.MsgType = Register) →
        (s.conns conn).Role = "" := by
      intro ht
      rcases hd with hd | hd
      · rcases ht with ht | ht
        · exact absurd ht hd.1
        · exact absurd ht hd.2
      · exact hd
    exact processMessage_server_cases_typed Bound s conn msg now rnd h
      (fun ht => Bound_handleRequestCode s conn now rnd h (hrole (Or.inl ht)))
      (fun ht => Bound_handleClientRegister s conn msg now h (hrole (Or.inr ht)))
      (fun ht => Bound_handleViewerRegister s conn msg now h (hrole (Or.inr ht)))
      (fun t store => Bound_cacheAndForward s conn msg t store h)
  | closed conn now => exact Bound_connectionClosed s conn now h
  | cleanup now => exact Bound_cleanup s now h
  | delayedClose conn => exact Bound_closeConnection s conn h

theorem Bound_run (evs : List Event) (s : Server) (h : Bound s)
    (hd : disciplined s evs = true) : Bound (run s evs) := by
  induction evs generalizing s with
  | nil => exact h
  | cons e es ih =>
    simp only [disciplined, Bool.and_eq_true] at hd
    exact ih (step s e) (Bound_step s e h hd.1) hd.2

/-- C4 (counterexample): session 485102 pairs client 2 with viewer 1; viewer 1 then
sends `requestCode` again and is given 485103.  In the reached state the session
under 485102 still has viewer 1, whose `SessionCode` is 485103. -/
theorem viewer_rebinds_session_code :
    Reachable reboundState ∧
    reboundState.sessions "485102" =
      some { Client := some 2, Viewer := some 1,
             Info := some { CreatedAt := 1000000, MonitorInfo := Json.null,
                            ProcessInfo := Json.null,
                            ClientInfo := Json.obj [("name", Json.str "c1")] } } ∧
    (reboundState.conns 1).SessionCode = "485103" ∧
    (reboundState.conns 1).SessionCode ≠ "485102" :=
  ⟨⟨_, rfl⟩, rfl, by decide, by decide⟩

/-- C4 (amended): in every state reached from the empty server by a run in which
`requestCode` and `register` envelopes are sent only by connections whose role is
still unassigned, for every session stored under a code `C` a non-nil client has
`SessionCode = C` and a non-nil viewer has `SessionCode = C`. -/
theorem slot_connections_carry_session_code (evs : List Event)
    (hd : disciplined NewServer evs = true) (c : String) (sess : Session)
    (hs : (run NewServer evs).sessions c = some sess) :
    (∀ k, sess.Client = some k → ((run NewServer evs).conns k).SessionCode = c) ∧
    (∀ k, sess.Viewer = some k → ((run NewServer evs).conns k).SessionCode = c) := by
  have h := Bound_run evs NewServer Bound_NewServer hd
  exact ⟨fun k hk => (h.1 c sess k hs hk).1, fun k hk => (h.2.1 c sess k hs hk).1⟩

/-- C4 (witness): after viewer 1 has requested 485102 and client 2 has paired on
it, both connections carry the session code 485102. -/
theorem slot_connections_carry_session_code_witness :
    disciplined NewServer [Event.message 1 requestCodeMsg 0 draws485102,
      Event.message 2 registerClientMsg 1000000 draws485102] = true ∧
    (pairedState.conns 2).SessionCode = "485102" ∧
    (pairedState.conns 1).SessionCode = "485102" :=
  have h := slot_connections_carry_session_code
    [Event.message 1 requestCodeMsg 0 draws485102,
     Event.message 2 registerClientMsg 1000000 draws485102] (by decide) "485102"
    { Client := some 2, Viewer := some 1,
      Info := some { CreatedAt := 1000000, MonitorInfo := Json.null,
                     ProcessInfo := Json.null,
                     ClientInfo := Json.obj [("name", Json.str "c1")] } } rfl
  ⟨by decide, h.1 2 rfl, h.2 1 rfl⟩


/-! ## Pending codes and sessions when no generated code collides -/

theorem PendingDisjoint_of_sub (s t : Server)
    (hp : ∀ c p, t.pendingCodes c = some p → s.pendingCodes c = some p)
    (hs : ∀ c sess, t.sessions c = some sess → ∃ old, s.sessions c = some old)
    (h : PendingDisjoint s) : PendingDisjoint t := by
  intro c p hc
  have h1 := h c p (hp c p hc)
  cases ht : t.sessions c with
  | none => rfl
  | some sess =>
    obtain ⟨old, h2⟩ := hs c sess ht
    rw [h1] at h2
    cases h2

theorem handleViewerRegister_pending_cases (s : Server) (conn : ConnId) (msg : Message)
    (now : Int) (c : String) :
    (handleViewerRegister s conn msg now).server.pendingCodes c = s.pendingCodes c ∨
    (c = msg.Code ∧ s.sessions c = none) := by
  by_cases hc : c = msg.Code
  · subst hc
    rcases Option.eq_none_or_eq_some (s.sessions msg.Code) with hs | ⟨old, hs⟩
    · exact Or.inr ⟨rfl, hs⟩
    · left
      simp only [handleViewerRegister, hs]
      simp only [Option.isNone_some, Bool.and_false, Bool.false_eq_true, if_false]
      split_ifs <;> rfl
  · left
    unfold handleViewerRegister
    simp only
    repeat' split
    all_goals simp [setKey, hc]

theorem PendingDisjoint_step (s : Server) (ev : Event) (h : PendingDisjoint s)
    (ha : SessionsActive s) (hf : freshCode s ev = true) : PendingDisjoint (step s ev) := by
  cases ev with
  | message conn msg now rnd =>
    simp only [freshCode, Bool.or_eq_true, Bool.not_eq_true', beq_eq_false_iff_ne] at hf
    refine processMessage_server_cases_typed PendingDisjoint s conn msg now rnd h ?_ ?_ ?_ ?_
    · intro ht c p hc
      rw [handleRequestCode_sessions]
      have hfresh : s.activeCodes (generateUniqueCode s rnd).1 = false := by
        rcases hf with hf | hf
        · exact absurd ht hf
        · exact hf
      simp only [handleRequestCode, setKey] at hc
      split_ifs at hc with hcode
      · cases hs : s.sessions c with
        | none => rfl
        | some sess =>
          have := ha c sess hs
          rw [hcode, hfresh] at this
          cases this
      · exact h c p hc
    · intro _ c p hc
      rcases handleClientRegister_pending_cases s conn msg now c with h1 | h1
      · rw [h1] at hc
        have hnone := h c p hc
        rcases handleClientRegister_sessions_shape s conn msg now c with
          h2 | ⟨hcode, q, info, hq, -⟩ | ⟨-, old, h0, -⟩
        · rw [h2]; exact hnone
        · exfalso
          subst hcode
          have h3 : (handleClientRegister s conn msg now).server.pendingCodes msg.Code = none := by
            simp [handleClientRegister, hq, setKey]
          rw [h1, hc] at h3
          cases h3
        · rw [hnone] at h0; cases h0
      · rw [h1] at hc; cases hc
    · intro _ c p hc
      rcases handleViewerRegister_pending_cases s conn msg now c with h1 | ⟨-, h1⟩
      · rw [h1] at hc
        have hnone := h c p hc
        rcases handleViewerRegister_sessions_cases s conn msg now c with h2 | ⟨old, h0, -, -⟩
        · rw [h2]; exact hnone
        · rw [hnone] at h0; cases h0
      · rcases handleViewerRegister_sessions_cases s conn msg now c with h2 | ⟨old, h0, -, -⟩
        · rw [h2]; exact h1
        · rw [h1] at h0; cases h0
    · intro t store
      refine PendingDisjoint_of_sub s _ ?_ ?_ h
      · intro c p hc
        rw [(cacheAndForward_frame s conn msg t store).2.1] at hc
        exact hc
      · intro c sess hc
        rcases cacheAndForward_sessions_cases s conn msg t store c with h1 | ⟨old, info, h0, -⟩
        · exact ⟨sess, h1 ▸ hc⟩
        · exact ⟨old, h0⟩
  | closed conn now =>
    refine PendingDisjoint_of_sub s _ ?_ ?_ h
    · intro c p hc
      have hc1 : (handleConnectionClose s conn now).server.pendingCodes c = some p := hc
      rcases handleConnectionClose_pending_cases s conn now c with h1 | h1
      · exact h1 ▸ hc1
      · rw [h1] at hc1; cases hc1
    · intro c sess hc
      have hc1 : (handleConnectionClose s conn now).server.sessions c = some sess := hc
      rcases handleConnectionClose_cases s conn now c with h1 | ⟨old, h0, -⟩
      · exact ⟨sess, h1.1 ▸ hc1⟩
      · exact ⟨old, h0⟩
  | cleanup now =>
    refine PendingDisjoint_of_sub s _ ?_ (fun c sess hc => ⟨sess, hc⟩) h
    intro c p hc
    exact ((cleanupExpiredCodes_entries s now c p).1 hc).1
  | delayedClose conn =>
    exact PendingDisjoint_of_sub s _ (fun c p hc => hc) (fun c sess hc => ⟨sess, hc⟩) h

/-- The fallback is the only way to a code that is both pending and paired: along
every run from the empty server in which each `requestCode` is answered with a
code that was not in `activeCodes`, no code is a key of both `pendingCodes` and
`sessions`. -/
theorem pending_disjoint_without_collision (evs : List Event)
    (hf : noCollision NewServer evs = true) : PendingDisjoint (run NewServer evs) := by
  have key : ∀ (evs : List Event) (s : Server), PendingDisjoint s → SessionsActive s →
      noCollision s evs = true → PendingDisjoint (run s evs) := by
    intro evs
    induction evs with
    | nil => intro s h _ _; exact h
    | cons e es ih =>
      intro s h ha hf
      simp only [noCollision, Bool.and_eq_true] at hf
      exact ih (step s e) (PendingDisjoint_step s e h ha hf.1) (SessionsActive_step s e ha) hf.2
  exact key evs NewServer (fun c p hc => by cases hc) SessionsActive_NewServer hf


/-! ## Dispatch of the relay and admin envelopes -/

theorem processMessage_signal (s : Server) (conn : ConnId) (msg : Message)
    (now : Int) (rnd : Nat → Nat) (hT : msg.MsgType = Signal) :
    processMessage s conn msg now rnd = handleSignal s conn msg := by
  simp [processMessage, hT, Signal, RequestCode, Register]

theorem processMessage_adminCommand (s : Server) (conn : ConnId) (msg : Message)
    (now : Int) (rnd : Nat → Nat) (hT : msg.MsgType = AdminCommand) :
    processMessage s conn msg now rnd = handleAdminCommand s conn msg := by
  simp [processMessage, hT, AdminCommand, Signal, RequestCode, Register, Connect,
    DisplayConfigChanged, MonitorInfo, ProcessInfo]

/-! ## A viewer registers again on its own session -/

/-- C11 (counterexample): session 485102 pairs the open client 2 with viewer 1;
viewer 1 sends `register role=viewer code=485102` again and the client is sent a
`viewerConnected`. -/
theorem viewer_reregister_notifies_client :
    pairedState.sessions "485102" =
      some { Client := some 2, Viewer := some 1,
             Info := some { CreatedAt := 1000000, MonitorInfo := Json.null,
                            ProcessInfo := Json.null,
                            ClientInfo := Json.obj [("name", Json.str "c1")] } } ∧
    (pairedState.conns 2).IsOpen = true ∧
    (processMessage pairedState 1 registerViewerMsg 2000000 draws485102).sent =
      [(2, createSimpleResponseMessage ViewerConnected
            (Json.obj [("timestamp", Json.num 2)]))] :=
  ⟨rfl, rfl, rfl⟩

/-- C11 (amended): when `sessions[C]` holds viewer `K` and an open client `L`,
handling a further `register role=viewer code=C` from `K` leaves the session (both
slots and the info) unchanged and calls `Send` with the cached `monitorInfo` for `K`,
if there is one, and then with exactly one `viewerConnected` for `L`. -/
theorem handleViewerRegister_same_viewer (s : Server) (K L : ConnId) (msg : Message)
    (now : Int) (rnd : Nat → Nat) (session : Session)
    (hT : msg.MsgType = Register) (hR : msg.Role = ViewerRole)
    (hS : s.sessions msg.Code = some session) (hV : session.Viewer = some K)
    (hC : session.Client = some L) (hL : (s.conns L).IsOpen = true) :
    (processMessage s K msg now rnd).server.sessions msg.Code = some session ∧
    (processMessage s K msg now rnd).sent =
      (match session.Info with
       | some info =>
         if info.MonitorInfo.notNil then
           [(K, createSimpleResponseMessage MonitorInfo info.MonitorInfo)]
         else []
       | none => []) ++
      [(L, createSimpleResponseMessage ViewerConnected
            (Json.obj [("timestamp", Json.num (getCurrentTimestamp now))]))] := by
  rw [processMessage_register_viewer s K msg now rnd hT hR]
  obtain ⟨cl, vw, info⟩ := session
  simp only at hV hC
  subst hV hC
  have hopen : (setConn s.conns K
      { s.conns K with SessionCode := msg.Code, Role := ViewerRole } L).IsOpen = true := by
    simp only [setConn]
    split_ifs with h
    · subst h; exact hL
    · exact hL
  simp only [handleViewerRegister, hS, Option.isNone_some, Bool.and_false,
    Bool.false_eq_true, if_false, ne_eq, not_true_eq_false, and_false, hopen, if_true,
    timestampPayload]
  exact ⟨by simp [setKey], trivial⟩

/-- C11 (witness): viewer 1 registers again on session 485102, whose client 2 is
open. -/
theorem handleViewerRegister_same_viewer_witness :
    (pairedState.conns 2).IsOpen = true ∧
    (processMessage pairedState 1 registerViewerMsg 2000000 draws485102).server.sessions
        "485102" = pairedState.sessions "485102" ∧
    (processMessage pairedState 1 registerViewerMsg 2000000 draws485102).sent =
      [(2, createSimpleResponseMessage ViewerConnected
            (Json.obj [("timestamp", Json.num 2)]))] :=
  have h := handleViewerRegister_same_viewer pairedState 1 2 registerViewerMsg 2000000
    draws485102 _ rfl rfl rfl rfl rfl rfl
  ⟨rfl, h.1, h.2⟩


/-! ## Admin commands -/

/-- C17: when `K` has role viewer and `sessions[C]` has the open client `L`, an
`adminCommand` for `C` from `K` whose payload `P` is an object with
`command = "disconnect"` makes exactly two calls of `Send`, an `adminCommand` with
the whole of `P` to `L` and then the `adminCommandResponse` to `K`, spawns nothing
and leaves the whole server state unchanged. -/
theorem handleAdminCommand_disconnect (s : Server) (K L : ConnId) (msg : Message)
    (now : Int) (rnd : Nat → Nat) (session : Session) (kvs : List (String × Json))
    (hT : msg.MsgType = AdminCommand) (hK : (s.conns K).Role = ViewerRole)
    (hS : s.sessions msg.Code = some session) (hC : session.Client = some L)
    (hL : (s.conns L).IsOpen = true) (hP : msg.Payload = some (Json.obj kvs))
    (hcmd : kvs.lookup "command" = some (Json.str "disconnect")) :
    (processMessage s K msg now rnd).sent =
      [(L, createSimpleResponseMessage AdminCommand (Json.obj kvs)),
       (K, createSimpleResponseMessage AdminCommandResponse
            (Json.obj [("command", Json.str "disconnect"), ("success", Json.bool true),
                       ("message", Json.str "Disconnect request sent to client")]))] ∧
    (processMessage s K msg now rnd).spawned = [] ∧
    (processMessage s K msg now rnd).server = s := by
  rw [processMessage_adminCommand s K msg now rnd hT]
  simp [handleAdminCommand, hK, hS, hC, hL, hP, hcmd, parsePayloadMap, mapLookup,
    isDisconnect, mapToJson]

/-- C17 (witness): viewer 1 of session 485102 sends the disconnect command, client 2
is open. -/
theorem handleAdminCommand_disconnect_witness :
    (pairedState.conns 1).Role = ViewerRole ∧ (pairedState.conns 2).IsOpen = true ∧
    (processMessage pairedState 1 adminDisconnectMsg 2000000 draws485102).sent =
      [(2, createSimpleResponseMessage AdminCommand
            (Json.obj [("command", Json.str "disconnect")])),
       (1, createSimpleResponseMessage AdminCommandResponse
            (Json.obj [("command", Json.str "disconnect"), ("success", Json.bool true),
                       ("message", Json.str "Disconnect request sent to client")]))] ∧
    (processMessage pairedState 1 adminDisconnectMsg 2000000 draws485102).server =
      pairedState :=
  have h := handleAdminCommand_disconnect pairedState 1 2 adminDisconnectMsg 2000000
    draws485102 _ [("command", Json.str "disconnect")] rfl rfl rfl rfl rfl rfl rfl
  ⟨rfl, rfl, h.1, h.2.2⟩

/-- What `handleAdminCommand` does with a command other than `disconnect` from a
viewer: with a session whose client is live the payload is forwarded to the
client; with a session whose client is nil or closed the viewer is sent
"Client not connected"; with no session for the code nothing is sent at all. -/
theorem handleAdminCommand_other (s : Server) (K : ConnId) (msg : Message)
    (kvs : List (String × Json)) (command : Json)
    (hK : (s.conns K).Role = ViewerRole) (hP : msg.Payload = some (Json.obj kvs))
    (hcmd : kvs.lookup "command" = some command) (hnd : isDisconnect command = false) :
    (∀ session L, s.sessions msg.Code = some session → session.Client = some L →
      (s.conns L).IsOpen = true →
      (handleAdminCommand s K msg).sent =
        [(L, createSimpleResponseMessage AdminCommand (Json.obj kvs))]) ∧
    (∀ session, s.sessions msg.Code = some session → isLive s session.Client = false →
      (handleAdminCommand s K msg).sent =
        [(K, createSimpleResponseMessage Error
              (Json.obj [("message", Json.str "Client not connected")]))]) ∧
    (s.sessions msg.Code = none → (handleAdminCommand s K msg).sent = []) := by
  refine ⟨?_, ?_, ?_⟩
  · intro session L hS hC hL
    simp [handleAdminCommand, hK, hS, hC, hL, hP, hcmd, hnd, parsePayloadMap, mapLookup,
      mapToJson, isLive]
  · intro session hS hC
    simp [handleAdminCommand, hK, hS, hC, hP, hcmd, hnd, parsePayloadMap, mapLookup,
      errorMessage]
  · intro hS
    simp [handleAdminCommand, hK, hS, hP, hcmd, hnd, parsePayloadMap, mapLookup]

/-- C18 (failing input): connection 1 has role viewer and holds 485102 pending, so
there is no session and no live client for that code; it sends `adminCommand`
with `command = "restart"` and `Send` is never called: no "Client not connected"
error reaches it. -/
theorem adminCommand_without_session_is_silent :
    (pendingState.conns 1).Role = ViewerRole ∧
    pendingState.sessions "485102" = none ∧
    (processMessage pendingState 1 adminRestartMsg 2000000 draws485102).sent = [] :=
  ⟨rfl, rfl, rfl⟩

/-! ## Closing a connection that holds a pending code -/

theorem handleConnectionClose_no_session (s : Server) (K : ConnId) (now : Int)
    (hS : s.sessions (s.conns K).SessionCode = none) :
    closeSession s K (s.conns K).SessionCode now = { server := s, sent := [], spawned := [] } := by
  simp [closeSession, hS]

/-- C20: for a connection `K` with non-empty session code `C` and no session stored
under `C`, `handleConnectionClose` removes `pendingCodes[C]` when that entry exists
and its stored viewer is `K` and keeps it otherwise, leaves every other pending
entry, the sessions table and `activeCodes` unchanged, and sends nothing. -/
theorem handleConnectionClose_pending_only (s : Server) (K : ConnId) (now : Int)
    (hC : (s.conns K).SessionCode ≠ "") (hS : s.sessions (s.conns K).SessionCode = none) :
    ((∃ p, s.pendingCodes (s.conns K).SessionCode = some p ∧ p.ViewerWS = K) →
      (handleConnectionClose s K now).server.pendingCodes (s.conns K).SessionCode = none) ∧
    (¬ (∃ p, s.pendingCodes (s.conns K).SessionCode = some p ∧ p.ViewerWS = K) →
      (handleConnectionClose s K now).server.pendingCodes (s.conns K).SessionCode =
        s.pendingCodes (s.conns K).SessionCode) ∧
    (∀ c, c ≠ (s.conns K).SessionCode →
      (handleConnectionClose s K now).server.pendingCodes c = s.pendingCodes c) ∧
    (handleConnectionClose s K now).server.sessions = s.sessions ∧
    (handleConnectionClose s K now).server.activeCodes = s.activeCodes ∧
    (handleConnectionClose s K now).sent = [] := by
  have h0 := handleConnectionClose_no_session s K now hS
  rcases Option.eq_none_or_eq_some (s.pendingCodes (s.conns K).SessionCode) with hp | ⟨p, hp⟩
  · have h1 : handleConnectionClose s K now = { server := s, sent := [], spawned := [] } := by
      simp [handleConnectionClose, hC, h0, hp]
    rw [h1]
    refine ⟨?_, ?_, ?_, rfl, rfl, rfl⟩
    · rintro ⟨p, h2, -⟩
      rw [hp] at h2; cases h2
    · intro _; rfl
    · intro c _; rfl
  · by_cases hv : p.ViewerWS = K
    · have h1 : handleConnectionClose s K now =
          { server := { s with pendingCodes := setKey s.pendingCodes (s.conns K).SessionCode none },
            sent := [], spawned := [] } := by
        simp [handleConnectionClose, hC, h0, hp, hv]
      rw [h1]
      refine ⟨?_, ?_, ?_, rfl, rfl, rfl⟩
      · intro _; simp [setKey]
      · intro hn; exact absurd ⟨p, hp, hv⟩ hn
      · intro c hc; simp [setKey, hc]
    · have h1 : handleConnectionClose s K now = { server := s, sent := [], spawned := [] } := by
        simp [handleConnectionClose, hC, h0, hp, hv]
      rw [h1]
      refine ⟨?_, ?_, ?_, rfl, rfl, rfl⟩
      · rintro ⟨q, h2, h3⟩
        rw [hp] at h2
        cases h2
        exact absurd h3 hv
      · intro _; rfl
      · intro c _; rfl

/-- C20 (witness): viewer 1 holds 485102 pending and closes; the pending entry is
removed and the code stays in `activeCodes`. -/
theorem handleConnectionClose_pending_only_witness :
    (pendingState.conns 1).SessionCode = "485102" ∧
    pendingState.sessions "485102" = none ∧
    pendingState.pendingCodes "485102" = some { CreatedAt := 0, ViewerWS := 1 } ∧
    (handleConnectionClose pendingState 1 2000000).server.pendingCodes "485102" = none ∧
    (handleConnectionClose pendingState 1 2000000).server.activeCodes "485102" = true :=
  have h := handleConnectionClose_pending_only pendingState 1 2000000 (by decide) rfl
  ⟨rfl, rfl, rfl, h.1 ⟨_, rfl, rfl⟩, by rw [h.2.2.2.2.1]; decide⟩


/-! ## Client registration: errors, reconnection and the handshake -/

theorem closeLater_fire (K : ConnId) (s : Server) (captured : Session) (now : Int) :
    (Goroutine.closeLater K).fire 0 s captured now =
      Except.ok { server := closeConnection s K, sent := [], spawned := [] } := rfl

/-- C12: in a state where every session key is in `activeCodes`, handling
`register role=client code=C` from `K` calls `Send` with an error exactly when
there is no pending entry for `C` and either (a) no session for `C` or (b) a session
whose client slot holds an open connection other than `K`.  In case (a) the only
call is the error "Invalid code or no viewer waiting for this code" to `K`, in case
(b) the error "Session already has an active client" to `K`; in both the only
goroutine started closes `K` after 500 ms and the whole server state is unchanged. -/
theorem handleClientRegister_error_cases (s : Server) (K : ConnId) (msg : Message)
    (now : Int) (rnd : Nat → Nat) (hA : SessionsActive s)
    (hT : msg.MsgType = Register) (hR : msg.Role = ClientRole) :
    ((∃ m ∈ (processMessage s K msg now rnd).sent, m.2.MsgType = Error) ↔
      (s.pendingCodes msg.Code = none ∧ s.sessions msg.Code = none) ∨
      (s.pendingCodes msg.Code = none ∧ ∃ session L, s.sessions msg.Code = some session ∧
        session.Client = some L ∧ L ≠ K ∧ (s.conns L).IsOpen = true)) ∧
    (s.pendingCodes msg.Code = none ∧ s.sessions msg.Code = none →
      (processMessage s K msg now rnd).sent =
        [(K, createSimpleResponseMessage Error
              (Json.obj [("message",
                Json.str "Invalid code or no viewer waiting for this code")]))] ∧
      (processMessage s K msg now rnd).spawned = [Goroutine.closeLater K] ∧
      (processMessage s K msg now rnd).server = s) ∧
    (s.pendingCodes msg.Code = none ∧ (∃ session L, s.sessions msg.Code = some session ∧
        session.Client = some L ∧ L ≠ K ∧ (s.conns L).IsOpen = true) →
      (processMessage s K msg now rnd).sent =
        [(K, createSimpleResponseMessage Error
              (Json.obj [("message", Json.str "Session already has an active client")]))] ∧
      (processMessage s K msg now rnd).spawned = [Goroutine.closeLater K] ∧
      (processMessage s K msg now rnd).server = s) ∧
    (Goroutine.closeLater K).wakeTimes = [500] ∧
    (∀ t captured later, (Goroutine.closeLater K).fire 0 t captured later =
      Except.ok { server := closeConnection t K, sent := [], spawned := [] }) := by
  rw [processMessage_register_client s K msg now rnd hT hR]
  have hinvalid : s.pendingCodes msg.Code = none → s.sessions msg.Code = none →
      handleClientRegister s K msg now =
        { server := s
          sent := [(K, errorMessage "Invalid code or no viewer waiting for this code")]
          spawned := [Goroutine.closeLater K] } := by
    intro hp hs
    simp only [handleClientRegister, hp, hs]
    split <;> simp_all
  have hactive : ∀ session L, s.pendingCodes msg.Code = none →
      s.sessions msg.Code = some session → session.Client = some L → L ≠ K →
      (s.conns L).IsOpen = true →
      handleClientRegister s K msg now =
        { server := s
          sent := [(K, errorMessage "Session already has an active client")]
          spawned := [Goroutine.closeLater K] } := by
    intro session L hp hs hc hne ho
    have ha := hA msg.Code session hs
    simp [handleClientRegister, hp, hs, ha, hc, isLive, ho, hne]
  refine ⟨?_, ?_, ?_, rfl, fun _ _ _ => rfl⟩
  · constructor
    · rintro ⟨m, hm, herr⟩
      rcases Option.eq_none_or_eq_some (s.pendingCodes msg.Code) with hp | ⟨p, hp⟩
      · rcases Option.eq_none_or_eq_some (s.sessions msg.Code) with hs | ⟨session, hs⟩
        · exact Or.inl ⟨hp, hs⟩
        · right
          refine ⟨hp, ?_⟩
          have ha := hA msg.Code session hs
          by_cases hcl : session.Client = none ∨ isLive s session.Client = false
          · exfalso
            simp only [handleClientRegister, hp, hs, ha, if_pos hcl] at hm
            simp only [List.mem_cons] at hm
            rcases hm with hm | hm
            · subst hm
              simp [createSimpleResponseMessage, SessionEstablished, Error] at herr
            · split at hm
              · split_ifs at hm
                · simp only [List.mem_singleton] at hm
                  subst hm
                  simp [createSimpleResponseMessage, ClientReconnected, Error] at herr
                · simp at hm
              · simp at hm
          · by_cases hk : session.Client = some K
            · exfalso
              simp only [handleClientRegister, hp, hs, ha, if_neg hcl, if_pos hk] at hm
              simp only [List.mem_singleton] at hm
              subst hm
              simp [createSimpleResponseMessage, SessionEstablished, Error] at herr
            · push_neg at hcl
              obtain ⟨L, hL⟩ := Option.ne_none_iff_exists'.mp hcl.1
              refine ⟨session, L, hs, hL, ?_, ?_⟩
              · intro h; exact hk (h ▸ hL)
              · have := hcl.2
                simpa [isLive, hL] using this
      · exfalso
        simp only [handleClientRegister, hp, List.mem_singleton] at hm
        subst hm
        simp [createSimpleResponseMessage, SessionEstablished, Error] at herr
    · rintro (⟨hp, hs⟩ | ⟨hp, session, L, hs, hc, hne, ho⟩)
      · rw [hinvalid hp hs]
        exact ⟨_, List.mem_singleton.mpr rfl, rfl⟩
      · rw [hactive session L hp hs hc hne ho]
        exact ⟨_, List.mem_singleton.mpr rfl, rfl⟩
  · rintro ⟨hp, hs⟩
    rw [hinvalid hp hs]
    exact ⟨rfl, rfl, rfl⟩
  · rintro ⟨hp, session, L, hs, hc, hne, ho⟩
    rw [hactive session L hp hs hc hne ho]
    exact ⟨rfl, rfl, rfl⟩

/-- C12 (witness): session 485102 has the open client 2; connection 3 registers as
client on it and is refused, with a close scheduled. -/
theorem handleClientRegister_error_cases_witness :
    SessionsActive pairedState ∧
    (processMessage pairedState 3 registerClientMsg 2000000 draws485102).sent =
      [(3, createSimpleResponseMessage Error
            (Json.obj [("message", Json.str "Session already has an active client")]))] ∧
    (processMessage pairedState 3 registerClientMsg 2000000 draws485102).spawned =
      [Goroutine.closeLater 3] ∧
    (processMessage pairedState 3 registerClientMsg 2000000 draws485102).server = pairedState :=
  have hA : SessionsActive pairedState :=
    Reachable.induction SessionsActive SessionsActive_NewServer SessionsActive_step
      pairedState ⟨_, rfl⟩
  have h := (handleClientRegister_error_cases pairedState 3 registerClientMsg 2000000
    draws485102 hA rfl rfl).2.2.1 ⟨rfl, _, 2, rfl, rfl, by decide, rfl⟩
  ⟨hA, h.1, h.2.1, h.2.2⟩

theorem restartConnect_fire (K : ConnId) (t : Server) (captured : Session) (later : Int) :
    (Goroutine.restartConnect K).fire 0 t captured later =
      Except.ok
        { server := t
          sent := if (t.conns K).IsOpen = true then
              [(K, createSimpleResponseMessage Connect
                (Json.obj [("message", Json.str "Restart WebRTC connection"),
                           ("timestamp", Json.num (getCurrentTimestamp later))]))]
            else []
          spawned := [] } := by
  simp only [Goroutine.fire]
  split_ifs <;> rfl

/-- C13: with no pending entry for `C`, `C` in `activeCodes` and a session under `C`
whose client slot is nil or holds a closed connection, handling
`register role=client code=C` from `K` sets the session's client to `K` and keeps
its viewer and info, sets `K.role = client` and `K.sessionCode = C`, calls `Send`
with `sessionEstablished` (timestamp, `reconnect: true`) for `K` and then with
`clientReconnected` for the viewer exactly when the viewer slot is non-nil and
open, and starts one goroutine: it wakes after 1000 ms and sends `connect` with
message "Restart WebRTC connection" to `K` when `K` is open then, nothing
otherwise. -/
theorem handleClientRegister_reconnects (s : Server) (K : ConnId) (msg : Message)
    (now : Int) (rnd : Nat → Nat) (session : Session)
    (hT : msg.MsgType = Register) (hR : msg.Role = ClientRole)
    (hP : s.pendingCodes msg.Code = none) (hS : s.sessions msg.Code = some session)
    (hA : s.activeCodes msg.Code = true)
    (hC : session.Client = none ∨ isLive s session.Client = false) :
    (processMessage s K msg now rnd).server.sessions msg.Code =
      some { Client := some K, Viewer := session.Viewer, Info := session.Info } ∧
    ((processMessage s K msg now rnd).server.conns K).Role = ClientRole ∧
    ((processMessage s K msg now rnd).server.conns K).SessionCode = msg.Code ∧
    (processMessage s K msg now rnd).sent =
      (K, createSimpleResponseMessage SessionEstablished
            (Json.obj [("timestamp", Json.num (getCurrentTimestamp now)),
                       ("reconnect", Json.bool true)])) ::
      (match session.Viewer with
       | some v =>
         if (s.conns v).IsOpen = true then
           [(v, createSimpleResponseMessage ClientReconnected
                 (Json.obj [("timestamp", Json.num (getCurrentTimestamp now))]))]
         else []
       | none => []) ∧
    (processMessage s K msg now rnd).spawned = [Goroutine.restartConnect K] ∧
    (Goroutine.restartConnect K).wakeTimes = [1000] ∧
    (∀ t captured later, (Goroutine.restartConnect K).fire 0 t captured later =
      Except.ok
        { server := t
          sent := if (t.conns K).IsOpen = true then
              [(K, createSimpleResponseMessage Connect
                (Json.obj [("message", Json.str "Restart WebRTC connection"),
                           ("timestamp", Json.num (getCurrentTimestamp later))]))]
            else []
          spawned := [] }) := by
  rw [processMessage_register_client s K msg now rnd hT hR]
  have hopen : ∀ v, (setConn s.conns K
      { s.conns K with Role := ClientRole, SessionCode := msg.Code } v).IsOpen =
      (s.conns v).IsOpen := by
    intro v
    simp only [setConn]
    split_ifs with h
    · subst h; rfl
    · rfl
  have hrun : handleClientRegister s K msg now =
      { server :=
          { s with
            sessions := setKey s.sessions msg.Code
              (some { Client := some K, Viewer := session.Viewer, Info := session.Info })
            conns := setConn s.conns K
              { s.conns K with Role := ClientRole, SessionCode := msg.Code } }
        sent := (K, createSimpleResponseMessage SessionEstablished
            (Json.obj [("timestamp", Json.num (getCurrentTimestamp now)),
                       ("reconnect", Json.bool true)])) ::
          (match session.Viewer with
           | some v =>
             if (s.conns v).IsOpen = true then
               [(v, createSimpleResponseMessage ClientReconnected
                     (Json.obj [("timestamp", Json.num (getCurrentTimestamp now))]))]
             else []
           | none => [])
        spawned := [Goroutine.restartConnect K] } := by
    simp only [handleClientRegister, hP, hS, hA, if_pos hC, hopen, timestampPayload]
  rw [hrun]
  refine ⟨by simp [setKey], by simp [setConn], by simp [setConn], rfl, rfl, rfl,
    restartConnect_fire K⟩

/-- C13 (witness): session 485102 has lost its client; connection 3 registers as
client and is taken in, the open viewer 1 is told. -/
theorem handleClientRegister_reconnects_witness :
    halfOpenState.pendingCodes "485102" = none ∧
    halfOpenState.activeCodes "485102" = true ∧
    (processMessage halfOpenState 3 registerClientMsg 3000000 draws485102).sent =
      [(3, createSimpleResponseMessage SessionEstablished
            (Json.obj [("timestamp", Json.num 3), ("reconnect", Json.bool true)])),
       (1, createSimpleResponseMessage ClientReconnected
            (Json.obj [("timestamp", Json.num 3)]))] ∧
    (processMessage halfOpenState 3 registerClientMsg 3000000 draws485102).spawned =
      [Goroutine.restartConnect 3] :=
  have h := handleClientRegister_reconnects halfOpenState 3 registerClientMsg 3000000
    draws485102 _ rfl rfl rfl rfl rfl (Or.inl rfl)
  ⟨rfl, rfl, h.2.2.2.1, h.2.2.2.2.1⟩

theorem pairNotify_fire_viewer (V K : ConnId) (code : String) (clientInfo : Json)
    (t : Server) (captured : Session) (later : Int) :
    (Goroutine.pairNotify V K code clientInfo).fire 0 t captured later =
      Except.ok
        { server := t
          sent := if (t.conns V).IsOpen = true then
              [(V, createSimpleResponseMessage ClientConnected
                (Json.obj [("timestamp", Json.num (getCurrentTimestamp later)),
                           ("code", Json.str code), ("clientInfo", clientInfo)]))]
            else []
          spawned := [] } := by
  simp only [Goroutine.fire]
  split_ifs <;> rfl

theorem pairNotify_fire_client (V K : ConnId) (code : String) (clientInfo : Json)
    (t : Server) (captured : Session) (later : Int) :
    (Goroutine.pairNotify V K code clientInfo).fire 1 t captured later =
      Except.ok
        { server := t
          sent := if (t.conns K).IsOpen = true then
              [(K, createSimpleResponseMessage Connect
                (Json.obj [("timestamp", Json.num (getCurrentTimestamp later)),
                           ("message", Json.str "Start WebRTC connection")]))]
            else []
          spawned := [] } := by
  simp only [Goroutine.fire]
  split_ifs <;> rfl

/-- C19: pairing client `K` on the pending code `C` with stored viewer `V` calls
`Send` once, with `sessionEstablished` for `K`, and starts one goroutine that wakes
twice, 1500 ms and 2500 ms after the pairing.  At the first wake-up it sends
`clientConnected` (timestamp, `code: C`, `clientInfo` the register payload) to `V`
when `V` is open then and nothing otherwise; at the second it sends `connect`
(timestamp, message "Start WebRTC connection") to `K` when `K` is open then and
nothing otherwise; it has no further step. -/
theorem handleClientRegister_handshake (s : Server) (K : ConnId) (msg : Message)
    (now : Int) (rnd : Nat → Nat) (p : PendingCode)
    (hT : msg.MsgType = Register) (hR : msg.Role = ClientRole)
    (hP : s.pendingCodes msg.Code = some p) :
    (processMessage s K msg now rnd).sent =
      [(K, createSimpleResponseMessage SessionEstablished
            (Json.obj [("timestamp", Json.num (getCurrentTimestamp now))]))] ∧
    (processMessage s K msg now rnd).spawned =
      [Goroutine.pairNotify p.ViewerWS K msg.Code (parsePayload msg.Payload)] ∧
    (Goroutine.pairNotify p.ViewerWS K msg.Code (parsePayload msg.Payload)).wakeTimes =
      [1500, 2500] ∧
    (∀ t captured later,
      (Goroutine.pairNotify p.ViewerWS K msg.Code (parsePayload msg.Payload)).fire 0 t
          captured later =
        Except.ok
          { server := t
            sent := if (t.conns p.ViewerWS).IsOpen = true then
                [(p.ViewerWS, createSimpleResponseMessage ClientConnected
                  (Json.obj [("timestamp", Json.num (getCurrentTimestamp later)),
                             ("code", Json.str msg.Code),
                             ("clientInfo", parsePayload msg.Payload)]))]
              else []
            spawned := [] }) ∧
    (∀ t captured later,
      (Goroutine.pairNotify p.ViewerWS K msg.Code (parsePayload msg.Payload)).fire 1 t
          captured later =
        Except.ok
          { server := t
            sent := if (t.conns K).IsOpen = true then
                [(K, createSimpleResponseMessage Connect
                  (Json.obj [("timestamp", Json.num (getCurrentTimestamp later)),
                             ("message", Json.str "Start WebRTC connection")]))]
              else []
            spawned := [] }) ∧
    (∀ n t captured later,
      (Goroutine.pairNotify p.ViewerWS K msg.Code (parsePayload msg.Payload)).fire (n + 2) t
          captured later =
        Except.ok { server := t, sent := [], spawned := [] }) := by
  rw [processMessage_register_client s K msg now rnd hT hR]
  have hsent : (handleClientRegister s K msg now).sent =
      [(K, createSimpleResponseMessage SessionEstablished
            (Json.obj [("timestamp", Json.num (getCurrentTimestamp now))]))] := by
    simp only [handleClientRegister, hP, timestampPayload]
  have hspawned : (handleClientRegister s K msg now).spawned =
      [Goroutine.pairNotify p.ViewerWS K msg.Code (parsePayload msg.Payload)] := by
    simp only [handleClientRegister, hP]
  exact ⟨hsent, hspawned, rfl, pairNotify_fire_viewer _ _ _ _, pairNotify_fire_client _ _ _ _,
    fun _ _ _ _ => rfl⟩

/-- C19 (witness): client 2 pairs on the code 485102 that viewer 1 holds pending. -/
theorem handleClientRegister_handshake_witness :
    pendingState.pendingCodes registerClientMsg.Code = some { CreatedAt := 0, ViewerWS := 1 } ∧
    (processMessage pendingState 2 registerClientMsg 1000000 draws485102).spawned =
      [Goroutine.pairNotify 1 2 "485102" (Json.obj [("name", Json.str "c1")])] ∧
    (Goroutine.pairNotify 1 2 "485102" (Json.obj [("name", Json.str "c1")])).wakeTimes =
      [1500, 2500] :=
  have h := handleClientRegister_handshake pendingState 2 registerClientMsg 1000000
    draws485102 { CreatedAt := 0, ViewerWS := 1 } rfl rfl rfl
  ⟨rfl, h.2.1, h.2.2.1⟩


/-! ## The close handler and the session slots -/

theorem handleConnectionClose_session_part (s : Server) (K : ConnId) (now : Int)
    (hC : (s.conns K).SessionCode ≠ "") :
    (handleConnectionClose s K now).sent =
      (closeSession s K (s.conns K).SessionCode now).sent ∧
    (handleConnectionClose s K now).server.sessions =
      (closeSession s K (s.conns K).SessionCode now).server.sessions := by
  unfold handleConnectionClose
  simp only
  rw [if_pos hC]
  repeat' split
  all_goals exact ⟨rfl, rfl⟩

theorem closeSession_of_some (s : Server) (K : ConnId) (code : String) (now : Int)
    (session : Session) (hS : s.sessions code = some session) :
    (closeSession s K code now).sent = (detachSlot s K code session now).2 ∧
    (closeSession s K code now).server.sessions code =
      (if (detachSlot s K code session now).1.Client = none ∧
          (detachSlot s K code session now).1.Viewer = none then none
       else some (detachSlot s K code session now).1) := by
  simp only [closeSession, hS]
  split_ifs with h
  · exact ⟨rfl, by simp [setKey]⟩
  · exact ⟨rfl, by simp [setKey]⟩

theorem detachSlot_client (s : Server) (K : ConnId) (code : String) (now : Int)
    (session : Session) (hr : (s.conns K).Role = ClientRole) (hc : session.Client = some K) :
    detachSlot s K code session now =
      ({ Client := none, Viewer := session.Viewer, Info := session.Info },
        match session.Viewer with
        | some v =>
          if (s.conns v).IsOpen = true then
            [(v, createSimpleResponseMessage ClientDisconnected
                  (Json.obj [("timestamp", Json.num (getCurrentTimestamp now)),
                             ("code", Json.str code)]))]
          else []
        | none => []) := by
  simp only [detachSlot]
  rw [if_pos ⟨hr, hc⟩]

theorem detachSlot_viewer (s : Server) (K : ConnId) (code : String) (now : Int)
    (session : Session) (hr : (s.conns K).Role = ViewerRole) (hv : session.Viewer = some K) :
    detachSlot s K code session now =
      ({ Client := session.Client, Viewer := none, Info := session.Info },
        match session.Client with
        | some c =>
          if (s.conns c).IsOpen = true then
            [(c, createSimpleResponseMessage ViewerDisconnected
                  (Json.obj [("timestamp", Json.num (getCurrentTimestamp now)),
                             ("code", Json.str code)]))]
          else []
        | none => []) := by
  have hne : ¬ ((s.conns K).Role = ClientRole ∧ session.Client = some K) := by
    rintro ⟨h, -⟩
    rw [hr] at h
    exact absurd h (by decide)
  simp only [detachSlot]
  rw [if_neg hne, if_pos ⟨hr, hv⟩]

theorem detachSlot_other (s : Server) (K : ConnId) (code : String) (now : Int)
    (session : Session)
    (h1 : ¬ ((s.conns K).Role = ClientRole ∧ session.Client = some K))
    (h2 : ¬ ((s.conns K).Role = ViewerRole ∧ session.Viewer = some K)) :
    detachSlot s K code session now = (session, []) := by
  simp only [detachSlot]
  rw [if_neg h1, if_neg h2]

/-- C14 (counterexample): connection 1 fills both slots of session 485102 and its
role is viewer.  It is the session's client slot, yet `handleConnectionClose`
leaves the client slot as it is: afterwards connection 1 still occupies it. -/
theorem close_leaves_client_slot :
    (selfPairedState.conns 1).SessionCode = "485102" ∧
    selfPairedState.sessions "485102" =
      some { Client := some 1, Viewer := some 1,
             Info := some { CreatedAt := 1000000, MonitorInfo := Json.null,
                            ProcessInfo := Json.null,
                            ClientInfo := Json.obj [("name", Json.str "c1")] } } ∧
    (handleConnectionClose selfPairedState 1 2000000).server.sessions "485102" =
      some { Client := some 1, Viewer := none,
             Info := some { CreatedAt := 1000000, MonitorInfo := Json.null,
                            ProcessInfo := Json.null,
                            ClientInfo := Json.obj [("name", Json.str "c1")] } } :=
  ⟨rfl, rfl, rfl⟩

/-- C14 (amended): for a connection `K` with non-empty session code `C` and a
session stored under `C`: if `K.role = client` and `K` is the client slot,
`handleConnectionClose` clears the client slot and sends `clientDisconnected`
(timestamp, `code: C`) to the viewer exactly when the viewer slot is non-nil and
open; if `K.role = viewer` and `K` is the viewer slot, it clears the viewer slot and
sends `viewerDisconnected` to the client exactly when the client slot is non-nil and
open; the session is removed from the table when both slots are then nil; in every
other case no slot is cleared and nothing is sent.  When `K` held only the slot that
matches its role, it occupies no slot of `sessions[C]` afterwards. -/
theorem handleConnectionClose_clears_slot (s : Server) (K : ConnId) (now : Int)
    (session : Session) (hC : (s.conns K).SessionCode ≠ "")
    (hS : s.sessions (s.conns K).SessionCode = some session) :
    ((s.conns K).Role = ClientRole → session.Client = some K →
      (handleConnectionClose s K now).sent =
        (match session.Viewer with
         | some v =>
           if (s.conns v).IsOpen = true then
             [(v, createSimpleResponseMessage ClientDisconnected
                   (Json.obj [("timestamp", Json.num (getCurrentTimestamp now)),
                              ("code", Json.str (s.conns K).SessionCode)]))]
           else []
         | none => []) ∧
      (handleConnectionClose s K now).server.sessions (s.conns K).SessionCode =
        (if session.Viewer = none then none
         else some { Client := none, Viewer := session.Viewer, Info := session.Info })) ∧
    ((s.conns K).Role = ViewerRole → session.Viewer = some K →
      (handleConnectionClose s K now).sent =
        (match session.Client with
         | some c =>
           if (s.conns c).IsOpen = true then
             [(c, createSimpleResponseMessage ViewerDisconnected
                   (Json.obj [("timestamp", Json.num (getCurrentTimestamp now)),
                              ("code", Json.str (s.conns K).SessionCode)]))]
           else []
         | none => []) ∧
      (handleConnectionClose s K now).server.sessions (s.conns K).SessionCode =
        (if session.Client = none then none
         else some { Client := session.Client, Viewer := none, Info := session.Info })) ∧
    (¬ ((s.conns K).Role = ClientRole ∧ session.Client = some K) →
      ¬ ((s.conns K).Role = ViewerRole ∧ session.Viewer = some K) →
      (handleConnectionClose s K now).sent = [] ∧
      (handleConnectionClose s K now).server.sessions (s.conns K).SessionCode =
        (if session.Client = none ∧ session.Viewer = none then none else some session)) ∧
    (((s.conns K).Role = ClientRole ∧ session.Client = some K ∧ session.Viewer ≠ some K) ∨
      ((s.conns K).Role = ViewerRole ∧ session.Viewer = some K ∧ session.Client ≠ some K) →
      ∀ after, (handleConnectionClose s K now).server.sessions (s.conns K).SessionCode =
          some after → after.Client ≠ some K ∧ after.Viewer ≠ some K) := by
  obtain ⟨hsent, hsess⟩ := handleConnectionClose_session_part s K now hC
  obtain ⟨h1, h2⟩ := closeSession_of_some s K (s.conns K).SessionCode now session hS
  rw [hsent, hsess, h1, h2]
  refine ⟨?_, ?_, ?_, ?_⟩
  · intro hr hc
    rw [detachSlot_client s K _ now session hr hc]
    exact ⟨rfl, by simp⟩
  · intro hr hv
    rw [detachSlot_viewer s K _ now session hr hv]
    exact ⟨rfl, by simp⟩
  · intro h3 h4
    rw [detachSlot_other s K _ now session h3 h4]
    exact ⟨rfl, rfl⟩
  · rintro (⟨hr, hc, hv⟩ | ⟨hr, hv, hc⟩) after hafter
    · rw [detachSlot_client s K _ now session hr hc] at hafter
      simp only [true_and] at hafter
      split_ifs at hafter with hn
      cases hafter
      exact ⟨by simp, hv⟩
    · rw [detachSlot_viewer s K _ now session hr hv] at hafter
      simp only [and_true] at hafter
      split_ifs at hafter with hn
      cases hafter
      exact ⟨hc, by simp⟩

/-- C14 (witness): client 2 of session 485102 closes; the client slot is cleared
and the open viewer 1 is sent `clientDisconnected`. -/
theorem handleConnectionClose_clears_slot_witness :
    (pairedState.conns 2).SessionCode = "485102" ∧
    (pairedState.conns 2).Role = ClientRole ∧
    (handleConnectionClose pairedState 2 2000000).sent =
      [(1, createSimpleResponseMessage ClientDisconnected
            (Json.obj [("timestamp", Json.num 2), ("code", Json.str "485102")]))] ∧
    (handleConnectionClose pairedState 2 2000000).server.sessions "485102" =
      some { Client := none, Viewer := some 1,
             Info := some { CreatedAt := 1000000, MonitorInfo := Json.null,
                            ProcessInfo := Json.null,
                            ClientInfo := Json.obj [("name", Json.str "c1")] } } :=
  have h := (handleConnectionClose_clears_slot pairedState 2 2000000 _ (by decide) rfl).1
    rfl rfl
  ⟨rfl, rfl, h.1, h.2⟩


/-! ## Signal relay -/

theorem relaySignal_live (t : Server) (v : ConnId) (payload : Json) (later : Int)
    (ho : (t.conns v).IsOpen = true) :
    relaySignal t (some v) payload later =
      Except.ok
        { server := t
          sent := [(v, { MsgType := Signal, Payload := payload,
                         Timestamp := some (getCurrentTimestamp later) })]
          spawned := [] } := by
  simp only [relaySignal]
  rw [if_pos ho]
  rfl

/-- C15: `handleSignal` never changes the server and never calls `Send` itself.
With a session under the code `C` of the envelope, a sender with role client and a
live viewer slot start one goroutine that wakes after 50 ms and, when the viewer
slot of the session then holds an open connection, sends that connection exactly
one envelope of type `signal` carrying the payload and a top-level timestamp; a
sender with role viewer and a live client slot do the same towards the client.  In
every other case (no session, sender with neither role, peer slot nil or closed at
receipt) no goroutine is started, so nothing is sent. -/
theorem handleSignal_relays (s : Server) (K : ConnId) (msg : Message) (now : Int)
    (rnd : Nat → Nat) (hT : msg.MsgType = Signal) :
    (processMessage s K msg now rnd).server = s ∧
    (processMessage s K msg now rnd).sent = [] ∧
    (s.sessions msg.Code = none → (processMessage s K msg now rnd).spawned = []) ∧
    (∀ session, s.sessions msg.Code = some session →
      ((s.conns K).Role = ClientRole → isLive s session.Viewer = true →
        (processMessage s K msg now rnd).spawned =
          [Goroutine.relayToViewer msg.Code (parsePayload msg.Payload)]) ∧
      ((s.conns K).Role = ViewerRole → isLive s session.Client = true →
        (processMessage s K msg now rnd).spawned =
          [Goroutine.relayToClient msg.Code (parsePayload msg.Payload)]) ∧
      (¬ ((s.conns K).Role = ClientRole ∧ isLive s session.Viewer = true) →
        ¬ ((s.conns K).Role = ViewerRole ∧ isLive s session.Client = true) →
        (processMessage s K msg now rnd).spawned = [])) ∧
    (Goroutine.relayToViewer msg.Code (parsePayload msg.Payload)).wakeTimes = [50] ∧
    (Goroutine.relayToClient msg.Code (parsePayload msg.Payload)).wakeTimes = [50] ∧
    (∀ t captured v later, captured.Viewer = some v → (t.conns v).IsOpen = true →
      (Goroutine.relayToViewer msg.Code (parsePayload msg.Payload)).fire 0 t captured later =
        Except.ok
          { server := t
            sent := [(v, { MsgType := Signal, Payload := parsePayload msg.Payload,
                           Timestamp := some (getCurrentTimestamp later) })]
            spawned := [] }) ∧
    (∀ t captured c later, captured.Client = some c → (t.conns c).IsOpen = true →
      (Goroutine.relayToClient msg.Code (parsePayload msg.Payload)).fire 0 t captured later =
        Except.ok
          { server := t
            sent := [(c, { MsgType := Signal, Payload := parsePayload msg.Payload,
                           Timestamp := some (getCurrentTimestamp later) })]
            spawned := [] }) := by
  rw [processMessage_signal s K msg now rnd hT]
  refine ⟨handleSignal_server s K msg, ?_, ?_, ?_, rfl, rfl, ?_, ?_⟩
  · unfold handleSignal
    simp only
    repeat' split
    all_goals rfl
  · intro hS
    simp [handleSignal, hS]
  · intro session hS
    refine ⟨?_, ?_, ?_⟩
    · intro hr hl
      simp only [handleSignal, hS]
      rw [if_pos ⟨hr, hl⟩]
    · intro hr hl
      have hne : ¬ ((s.conns K).Role = ClientRole ∧ isLive s session.Viewer = true) := by
        rintro ⟨h, -⟩
        rw [hr] at h
        exact absurd h (by decide)
      simp only [handleSignal, hS]
      rw [if_neg hne, if_pos ⟨hr, hl⟩]
    · intro h1 h2
      simp only [handleSignal, hS]
      rw [if_neg h1, if_neg h2]
  · intro t captured v later hv ho
    simp only [Goroutine.fire, hv]
    exact relaySignal_live t v _ later ho
  · intro t captured c later hc ho
    simp only [Goroutine.fire, hc]
    exact relaySignal_live t c _ later ho

/-- C15 (witness): client 2 of session 485102 sends an offer; the goroutine started
for it finds viewer 1 in the slot and open, and sends it the offer. -/
theorem handleSignal_relays_witness :
    (pairedState.conns 2).Role = ClientRole ∧
    (processMessage pairedState 2 signalOfferMsg 2000000 draws485102).spawned =
      [Goroutine.relayToViewer "485102"
        (Json.obj [("type", Json.str "offer"), ("sdp", Json.str "v=0")])] ∧
    (Goroutine.relayToViewer "485102"
        (Json.obj [("type", Json.str "offer"), ("sdp", Json.str "v=0")])).fire 0 pairedState
        { Client := some 2, Viewer := some 1,
          Info := some { CreatedAt := 1000000, MonitorInfo := Json.null,
                         ProcessInfo := Json.null,
                         ClientInfo := Json.obj [("name", Json.str "c1")] } } 2050000 =
      Except.ok
        { server := pairedState
          sent := [(1, { MsgType := Signal,
                         Payload := Json.obj [("type", Json.str "offer"),
                                              ("sdp", Json.str "v=0")],
                         Timestamp := some 2 })]
          spawned := [] } :=
  have h := handleSignal_relays pairedState 2 signalOfferMsg 2000000 draws485102 rfl
  ⟨rfl, (h.2.2.2.1 _ rfl).1 rfl rfl,
   h.2.2.2.2.2.2.1 pairedState _ 1 2050000 rfl rfl⟩

/-- What the relay goroutine does at its wake-up, for every state: it panics when
the peer slot of the captured session is nil, sends nothing when the slot holds a
closed connection, and sends the signal when it holds an open one. -/
theorem relaySignal_cases (t : Server) (payload : Json) (later : Int) :
    relaySignal t none payload later =
      Except.error "invalid memory address or nil pointer dereference" ∧
    (∀ v, (t.conns v).IsOpen = false →
      relaySignal t (some v) payload later =
        Except.ok { server := t, sent := [], spawned := [] }) ∧
    (∀ v, (t.conns v).IsOpen = true →
      relaySignal t (some v) payload later =
        Except.ok
          { server := t
            sent := [(v, { MsgType := Signal, Payload := payload,
                           Timestamp := some (getCurrentTimestamp later) })]
            spawned := [] }) := by
  refine ⟨rfl, ?_, ?_⟩
  · intro v hv
    simp [relaySignal, hv]
  · intro v hv
    exact relaySignal_live t v payload later hv

/-- C16 (failing input): client 2 of session 485102 sends a signal, which is
accepted for relay to viewer 1; viewer 1 closes during the 50 ms, and the close
handler sets the viewer slot to nil while the session stays in the table; the
goroutine then evaluates `session.Viewer.IsOpen()` on the nil slot and panics. -/
theorem relay_panics_on_cleared_slot :
    (processMessage pairedState 2 signalOfferMsg 2000000 draws485102).spawned =
      [Goroutine.relayToViewer "485102"
        (Json.obj [("type", Json.str "offer"), ("sdp", Json.str "v=0")])] ∧
    viewerGoneState.sessions "485102" =
      some { Client := some 2, Viewer := none,
             Info := some { CreatedAt := 1000000, MonitorInfo := Json.null,
                            ProcessInfo := Json.null,
                            ClientInfo := Json.obj [("name", Json.str "c1")] } } ∧
    (Goroutine.relayToViewer "485102"
        (Json.obj [("type", Json.str "offer"), ("sdp", Json.str "v=0")])).fire 0
        viewerGoneState
        { Client := some 2, Viewer := none,
          Info := some { CreatedAt := 1000000, MonitorInfo := Json.null,
                         ProcessInfo := Json.null,
                         ClientInfo := Json.obj [("name", Json.str "c1")] } } 2050000 =
      Except.error "invalid memory address or nil pointer dereference" :=
  ⟨rfl, rfl, rfl⟩


/-! ## The connection wrapper -/

theorem Connection.apply_closed (c : Connection) (op : ConnOp) (h : c.IsOpen = false) :
    (c.apply op).IsOpen = false := by
  cases op with
  | send m => exact h
  | isOpen => exact h
  | close => rfl

theorem step_keeps_closed (s : Server) (ev : Event) (k : ConnId)
    (h : (s.conns k).IsOpen = false) : ((step s ev).conns k).IsOpen = false := by
  have hset : ∀ (m : ConnId → Connection) (conn : ConnId) (c : Connection),
      (m k).IsOpen = false → (c.WS = (m conn).WS ∨ c.WS = none) →
      (setConn m conn c k).IsOpen = false := by
    intro m conn c hm hc
    simp only [setConn]
    split_ifs with hk
    · subst hk
      rcases hc with hc | hc
      · simp only [Connection.IsOpen, hc]; exact hm
      · simp [Connection.IsOpen, hc]
    · exact hm
  refine step_cases (fun t => (t.conns k).IsOpen = false) s ev h ?_ ?_ ?_ ?_ ?_ ?_ ?_
  · intro conn now rnd
    exact hset _ conn _ h (Or.inl rfl)
  · intro conn msg now
    unfold handleClientRegister
    simp only
    repeat' split
    all_goals first
      | exact h
      | exact hset _ conn _ h (Or.inl rfl)
      | exact hset _ _ _ (hset _ conn _ h (Or.inl rfl)) (Or.inl rfl)
  · intro conn msg now
    unfold handleViewerRegister
    simp only
    repeat' split
    all_goals first
      | exact h
      | exact hset _ conn _ h (Or.inl rfl)
  · intro conn msg t store
    rw [(cacheAndForward_frame s conn msg t store).2.2]
    exact h
  · intro conn now
    have hc : (connectionClosed s conn now).server.conns =
        setConn s.conns conn (s.conns conn).Close := by
      simp only [connectionClosed, handleConnectionClose_conns]
    rw [hc]
    exact hset _ conn _ h (Or.inr rfl)
  · intro now
    exact h
  · intro conn
    exact hset _ conn _ h (Or.inr rfl)

/-- C21: `Close` is idempotent and leaves a closed connection as it is; after
`Close`, `IsOpen` is false and every `Send` returns the error "connection is nil"
without writing a frame; no sequence of `Send`, `IsOpen` and `Close` operations
turns a closed connection back to open, and neither does any step of the server. -/
theorem connection_closed_for_good (c : Connection) :
    c.Close.Close = c.Close ∧
    (c.IsOpen = false → c.Close = c) ∧
    c.Close.IsOpen = false ∧
    (∀ m, c.Close.Send m = Except.error "connection is nil") ∧
    (∀ ops : List ConnOp, c.IsOpen = false →
      (ops.foldl Connection.apply c).IsOpen = false) ∧
    (∀ ops : List ConnOp, (ops.foldl Connection.apply c.Close).IsOpen = false) ∧
    (∀ (s : Server) (evs : List Event) (k : ConnId), (s.conns k).IsOpen = false →
      ((run s evs).conns k).IsOpen = false) := by
  have hops : ∀ (ops : List ConnOp) (d : Connection), d.IsOpen = false →
      (ops.foldl Connection.apply d).IsOpen = false := by
    intro ops
    induction ops with
    | nil => intro d hd; exact hd
    | cons op rest ih =>
      intro d hd
      exact ih (d.apply op) (Connection.apply_closed d op hd)
  refine ⟨rfl, ?_, rfl, fun _ => rfl, fun ops h => hops ops c h, fun ops => hops ops _ rfl, ?_⟩
  · intro h
    obtain ⟨ws, role, code⟩ := c
    cases ws with
    | none => rfl
    | some w => simp [Connection.IsOpen] at h
  · intro s evs k h
    exact run_induction (fun t => (t.conns k).IsOpen = false)
      (fun t ev ht => step_keeps_closed t ev k ht) s evs h

/-- C21 (witness): connection 3 was closed after being refused as a viewer; it is
still closed after the rest of the run, and a `Send` on it returns the error. -/
theorem connection_closed_for_good_witness :
    ((run NewServer (sampleTrace.take 4)).conns 3).IsOpen = false ∧
    ((run (run NewServer (sampleTrace.take 4)) (sampleTrace.drop 4)).conns 3).IsOpen = false ∧
    ((run NewServer (sampleTrace.take 4)).conns 3).Close.Send
        (createSimpleResponseMessage Connect Json.null) = Except.error "connection is nil" :=
  have h := connection_closed_for_good ((run NewServer (sampleTrace.take 4)).conns 3)
  ⟨rfl, h.2.2.2.2.2.2 (run NewServer (sampleTrace.take 4)) (sampleTrace.drop 4) 3 rfl,
   h.2.2.2.1 _⟩


/-! ## Cached monitor info -/

theorem processMessage_monitorInfo (s : Server) (conn : ConnId) (msg : Message)
    (now : Int) (rnd : Nat → Nat) (hT : msg.MsgType = MonitorInfo) :
    processMessage s conn msg now rnd = handleMonitorInfo s conn msg := by
  simp [processMessage, hT, MonitorInfo, Signal, RequestCode, Register, Connect,
    DisplayConfigChanged]

theorem handleMonitorInfo_caches (s : Server) (A : ConnId) (msg : Message)
    (session : Session) (info : SessionInfo)
    (hA : (s.conns A).Role = ClientRole) (hS : s.sessions msg.Code = some session)
    (hI : session.Info = some info) :
    (handleMonitorInfo s A msg).server.sessions msg.Code =
      some { Client := session.Client, Viewer := session.Viewer,
             Info := some { info with MonitorInfo := parsePayload msg.Payload } } ∧
    (handleMonitorInfo s A msg).server.conns = s.conns ∧
    (handleMonitorInfo s A msg).server.pendingCodes = s.pendingCodes := by
  have h := cacheAndForward_frame s A msg MonitorInfo
    (fun i payload => { i with MonitorInfo := payload })
  refine ⟨?_, h.2.2, h.2.1⟩
  simp only [handleMonitorInfo, cacheAndForward, hS, hA, hI, if_true]
  split
  · split_ifs <;> simp [setKey]
  · simp [setKey]

/-- C23: when `sessions[C]` has non-nil info and an empty viewer slot, a
`monitorInfo` envelope for `C` with non-null payload `P` from a connection with role
client stores `P` as `info.monitorInfo`; a later `monitorInfo` with payload `Q`
replaces it by `Q`; and a subsequent `register role=viewer code=C` from `K` sets the
viewer slot to `K` and calls `Send` first with a `monitorInfo` envelope carrying `P`
for `K`, and only then with `viewerConnected` for the client if it is live. -/
theorem monitorInfo_cached_and_replayed (s : Server) (A B K : ConnId)
    (msg later reg : Message) (now1 now2 : Int) (rnd : Nat → Nat)
    (session : Session) (info : SessionInfo) (P : Json)
    (hT : msg.MsgType = MonitorInfo) (hP : msg.Payload = some P) (hN : P.notNil = true)
    (hA : (s.conns A).Role = ClientRole)
    (hS : s.sessions msg.Code = some session) (hI : session.Info = some info)
    (hV : session.Viewer = none)
    (hT2 : later.MsgType = MonitorInfo) (hC2 : later.Code = msg.Code)
    (hB : (s.conns B).Role = ClientRole)
    (hT3 : reg.MsgType = Register) (hR3 : reg.Role = ViewerRole) (hC3 : reg.Code = msg.Code) :
    (processMessage s A msg now1 rnd).server.sessions msg.Code =
      some { Client := session.Client, Viewer := none,
             Info := some { info with MonitorInfo := P } } ∧
    (processMessage (processMessage s A msg now1 rnd).server B later now2 rnd).server.sessions
        msg.Code =
      some { Client := session.Client, Viewer := none,
             Info := some { info with MonitorInfo := parsePayload later.Payload } } ∧
    (processMessage (processMessage s A msg now1 rnd).server K reg now2 rnd).server.sessions
        msg.Code =
      some { Client := session.Client, Viewer := some K,
             Info := some { info with MonitorInfo := P } } ∧
    (processMessage (processMessage s A msg now1 rnd).server K reg now2 rnd).sent =
      (K, createSimpleResponseMessage MonitorInfo P) ::
      (match session.Client with
       | some c =>
         if (s.conns c).IsOpen = true then
           [(c, createSimpleResponseMessage ViewerConnected
                 (Json.obj [("timestamp", Json.num (getCurrentTimestamp now2))]))]
         else []
       | none => []) := by
  rw [processMessage_monitorInfo s A msg now1 rnd hT]
  obtain ⟨h1, hconns, -⟩ := handleMonitorInfo_caches s A msg session info hA hS hI
  have hpay : parsePayload msg.Payload = P := by rw [hP]; rfl
  rw [hpay, hV] at h1
  refine ⟨h1, ?_, ?_, ?_⟩
  · rw [processMessage_monitorInfo _ B later now2 rnd hT2]
    have hB1 : ((handleMonitorInfo s A msg).server.conns B).Role = ClientRole := by
      rw [hconns]; exact hB
    have h2 := (handleMonitorInfo_caches (handleMonitorInfo s A msg).server B later _ _ hB1
      (hC2 ▸ h1) rfl).1
    rw [hC2] at h2
    exact h2
  · rw [processMessage_register_viewer _ K reg now2 rnd hT3 hR3]
    simp only [handleViewerRegister, hC3, h1, Option.isNone_some, Bool.and_false,
      Bool.false_eq_true, if_false, ne_eq, not_true_eq_false, false_and]
    simp [setKey]
  · rw [processMessage_register_viewer _ K reg now2 rnd hT3 hR3]
    have hopen : ∀ c, (setConn (handleMonitorInfo s A msg).server.conns K
        { (handleMonitorInfo s A msg).server.conns K with
          SessionCode := msg.Code, Role := ViewerRole } c).IsOpen = (s.conns c).IsOpen := by
      intro c
      rw [hconns]
      simp only [setConn]
      split_ifs with h
      · subst h; rfl
      · rfl
    simp only [handleViewerRegister, hC3, h1, Option.isNone_some, Bool.and_false,
      Bool.false_eq_true, if_false, ne_eq, not_true_eq_false, false_and, hN, if_true,
      hopen, timestampPayload]
    rfl

/-- C23 (witness): session 485102 has lost its viewer; client 2 reports its
monitors, then connection 3 registers as viewer and is sent the cached report
before client 2 is told. -/
theorem monitorInfo_cached_and_replayed_witness :
    viewerGoneState.sessions "485102" =
      some { Client := some 2, Viewer := none,
             Info := some { CreatedAt := 1000000, MonitorInfo := Json.null,
                            ProcessInfo := Json.null,
                            ClientInfo := Json.obj [("name", Json.str "c1")] } } ∧
    (viewerGoneState.conns 2).Role = ClientRole ∧
    (processMessage (processMessage viewerGoneState 2 monitorInfoMsg 3000000
        draws485102).server 3 registerViewerMsg 4000000 draws485102).sent =
      [(3, createSimpleResponseMessage MonitorInfo (Json.obj [("monitors", Json.num 2)])),
       (2, createSimpleResponseMessage ViewerConnected
            (Json.obj [("timestamp", Json.num 4)]))] :=
  have h := monitorInfo_cached_and_replayed viewerGoneState 2 2 3 monitorInfoMsg
    monitorInfoMsg registerViewerMsg 3000000 4000000 draws485102 _ _
    (Json.obj [("monitors", Json.num 2)]) rfl rfl rfl rfl rfl rfl rfl rfl rfl rfl rfl rfl rfl
  ⟨rfl, rfl, h.2.2.2⟩

/-! ## Session keys are active codes, and client registration on a session -/

/-- C24: in every state reachable from the empty server every key of `sessions` is a
member of `activeCodes`; hence for a code `C` with a session and no pending entry,
`register role=client code=C` always takes the session-exists branch and never the
invalid-code branch: it re-attaches the client when the client slot is nil or
closed, refreshes when the slot holds the sender, and otherwise refuses with
"Session already has an active client". -/
theorem session_branch_taken (s : Server) (h : Reachable s) :
    (∀ c session, s.sessions c = some session → s.activeCodes c = true) ∧
    (∀ (K : ConnId) (msg : Message) (now : Int) (rnd : Nat → Nat) (session : Session),
      msg.MsgType = Register → msg.Role = ClientRole →
      s.pendingCodes msg.Code = none → s.sessions msg.Code = some session →
      (session.Client = none ∨ isLive s session.Client = false →
        (processMessage s K msg now rnd).server.sessions msg.Code =
          some { Client := some K, Viewer := session.Viewer, Info := session.Info } ∧
        (processMessage s K msg now rnd).spawned = [Goroutine.restartConnect K]) ∧
      (¬ (session.Client = none ∨ isLive s session.Client = false) →
        session.Client = some K →
        (processMessage s K msg now rnd).sent =
          [(K, createSimpleResponseMessage SessionEstablished
                (Json.obj [("timestamp", Json.num (getCurrentTimestamp now)),
                           ("refresh", Json.bool true)]))] ∧
        (processMessage s K msg now rnd).spawned = []) ∧
      (¬ (session.Client = none ∨ isLive s session.Client = false) →
        session.Client ≠ some K →
        (processMessage s K msg now rnd).sent =
          [(K, createSimpleResponseMessage Error
                (Json.obj [("message", Json.str "Session already has an active client")]))] ∧
        (processMessage s K msg now rnd).spawned = [Goroutine.closeLater K])) := by
  have hact : SessionsActive s :=
    Reachable.induction SessionsActive SessionsActive_NewServer SessionsActive_step s h
  refine ⟨hact, ?_⟩
  intro K msg now rnd session hT hR hP hS
  have ha := hact msg.Code session hS
  rw [processMessage_register_client s K msg now rnd hT hR]
  refine ⟨?_, ?_, ?_⟩
  · intro hc
    constructor
    · simp only [handleClientRegister, hP, hS, ha, if_pos hc]
      simp [setKey]
    · simp only [handleClientRegister, hP, hS, ha, if_pos hc]
  · intro hc hk
    constructor
    · simp only [handleClientRegister, hP, hS, ha, if_neg hc, if_pos hk]
    · simp only [handleClientRegister, hP, hS, ha, if_neg hc, if_pos hk]
  · intro hc hk
    constructor
    · simp only [handleClientRegister, hP, hS, ha, if_neg hc, if_neg hk, errorMessage]
    · simp only [handleClientRegister, hP, hS, ha, if_neg hc, if_neg hk]

/-- C24 (witness): the state reached through the fallback of `generateUniqueCode`
has session 485102 with its code active; after the session's client has gone, a
client registration on 485102 takes the session-exists branch. -/
theorem session_branch_taken_witness :
    Reachable collidedState ∧ collidedState.activeCodes "485102" = true ∧
    Reachable halfOpenState ∧ halfOpenState.pendingCodes "485102" = none ∧
    (processMessage halfOpenState 3 registerClientMsg 3000000 draws485102).spawned =
      [Goroutine.restartConnect 3] :=
  ⟨⟨_, rfl⟩, (session_branch_taken collidedState ⟨_, rfl⟩).1 "485102" _ rfl,
   ⟨_, rfl⟩, rfl,
   ((session_branch_taken halfOpenState ⟨_, rfl⟩).2 3 registerClientMsg 3000000
      draws485102 _ rfl rfl rfl rfl).1 (Or.inl rfl) |>.2⟩


/-! ## Lock order -/

/-- C22 (failing input): closing client 2 of session 485102 locks the session, and
with the session lock still held (its unlock is deferred) takes the global lock for
the pending check; pairing client 2 on the pending code 485102 calls `Send` between
taking the global lock and its deferred release. -/
theorem lock_discipline_violated :
    handleConnectionCloseLocks pairedState 2 2000000 =
      [LockOp.acquire Lock.global, LockOp.release Lock.global,
       LockOp.acquire (Lock.session "485102"),
       LockOp.acquire (Lock.conn 1), LockOp.release (Lock.conn 1),
       LockOp.acquire (Lock.conn 1), LockOp.send 1, LockOp.release (Lock.conn 1),
       LockOp.acquire Lock.global, LockOp.release Lock.global,
       LockOp.release (Lock.session "485102")] ∧
    acquiresGlobalUnderSession [] (handleConnectionCloseLocks pairedState 2 2000000) = true ∧
    handleClientRegisterLocks pendingState 2 registerClientMsg =
      [LockOp.acquire Lock.global,
       LockOp.acquire (Lock.conn 2), LockOp.send 2, LockOp.release (Lock.conn 2),
       LockOp.release Lock.global] ∧
    sendsUnderGlobal [] (handleClientRegisterLocks pendingState 2 registerClientMsg) = true := by
  refine ⟨?_, ?_, ?_, ?_⟩
  · decide
  · decide
  · decide
  · decide

theorem handleMonitorInfoLocks_disciplined (s : Server) (conn : ConnId) (msg : Message) :
    acquiresGlobalUnderSession [] (handleMonitorInfoLocks s conn msg) = false ∧
    sendsUnderGlobal [] (handleMonitorInfoLocks s conn msg) = false := by
  unfold handleMonitorInfoLocks notifyOps
  simp only
  repeat' split
  all_goals simp [acquiresGlobalUnderSession, sendsUnderGlobal, sendOps, isOpenOps,
    Lock.isSession]

theorem handleClientRegisterLocks_sends_under_global (s : Server) (conn : ConnId)
    (msg : Message) :
    sendsUnderGlobal [] (handleClientRegisterLocks s conn msg) = true := by
  unfold handleClientRegisterLocks notifyOps
  simp only
  repeat' split
  all_goals simp [sendsUnderGlobal, sendOps, isOpenOps]

theorem handleConnectionCloseLocks_inverts (s : Server) (conn : ConnId) (now : Int)
    (session : Session) (hC : (s.conns conn).SessionCode ≠ "")
    (hS : s.sessions (s.conns conn).SessionCode = some session) :
    acquiresGlobalUnderSession [] (handleConnectionCloseLocks s conn now) = true := by
  unfold handleConnectionCloseLocks notifyOps
  simp only [hS, if_pos hC]
  repeat' split
  all_goals simp [acquiresGlobalUnderSession, sendOps, isOpenOps, Lock.isSession]

theorem register_locks_ordered (s : Server) (conn : ConnId) (msg : Message) :
    acquiresGlobalUnderSession [] (handleClientRegisterLocks s conn msg) = false ∧
    acquiresGlobalUnderSession [] (handleViewerRegisterLocks s conn msg) = false := by
  constructor
  · unfold handleClientRegisterLocks notifyOps
    simp only
    repeat' split
    all_goals simp [acquiresGlobalUnderSession, sendOps, isOpenOps, Lock.isSession]
  · unfold handleViewerRegisterLocks notifyOps
    simp only
    repeat' split
    all_goals simp [acquiresGlobalUnderSession, sendOps, isOpenOps, Lock.isSession]

theorem handleViewerRegisterLocks_refusal_under_global (s : Server) (conn : ConnId)
    (msg : Message) (session : Session) (hS : s.sessions msg.Code = some session)
    (hV : session.Viewer ≠ none ∧ session.Viewer ≠ some conn) :
    sendsUnderGlobal [] (handleViewerRegisterLocks s conn msg) = true := by
  simp [handleViewerRegisterLocks, hS, hV, sendsUnderGlobal, sendOps]

end InterView
